import Mathlib

/-!
Verification of the resilience/admission layer of the automl-orchestrator
gateway: circuit breaker, sliding-window rate limiter, result cache,
retry policy, usage tracker, and the gateway operations composing them.

The embedding follows `src/tools/cost_tracker/tracker.py`,
`src/tools/cost_tracker/usage.py` and
`src/tools/agent_researcher_tools/{research,models}.py`.
Wall-clock time (`time.time()`) is modelled as an `Int` passed explicitly
to each operation; the async locks serialize each operation, so every
operation is a pure function from (state, now, inputs) to
(result, state).
-/

namespace AutoML

/-! ### Circuit breaker (`tracker.py`, class `CircuitBreaker`) -/

/-- The three breaker states; the source uses the strings
"closed", "open", "half-open" (`opened` here since `open` is reserved). -/
inductive BState
  | closed
  | opened
  | halfOpen
deriving DecidableEq, Repr

/-- Fields of `CircuitBreaker.__init__`: `_threshold`, `_timeout`,
`_failures`, `_last_failure`, `_state`. -/
structure CircuitBreaker where
  threshold : Nat
  timeout : Int
  failures : Nat
  lastFailure : Int
  state : BState
deriving DecidableEq, Repr

/-- `CircuitBreaker(threshold, timeout)`: failures 0, last failure 0, closed. -/
def CircuitBreaker.init (threshold : Nat) (timeout : Int) : CircuitBreaker :=
  ⟨threshold, timeout, 0, 0, .closed⟩

/-- `CircuitBreaker.can_execute`: closed always true; open lets one probe
through once `now - last_failure >= timeout`, flipping to half-open,
else false; any other state (half-open) returns true.  Returns the bool
together with the possibly-updated breaker. -/
def CircuitBreaker.can_execute (b : CircuitBreaker) (now : Int) :
    Bool × CircuitBreaker :=
  match b.state with
  | .closed => (true, b)
  | .opened =>
      if b.timeout ≤ now - b.lastFailure then
        (true, { b with state := .halfOpen })
      else
        (false, b)
  | .halfOpen => (true, b)

/-- `CircuitBreaker.record_success`: failures := 0, state := closed. -/
def CircuitBreaker.record_success (b : CircuitBreaker) : CircuitBreaker :=
  { b with failures := 0, state := .closed }

/-- `CircuitBreaker.record_failure`: increment failures, stamp
`last_failure = now`, and open the breaker when the new count reaches
the threshold. -/
def CircuitBreaker.record_failure (b : CircuitBreaker) (now : Int) :
    CircuitBreaker :=
  if b.threshold ≤ b.failures + 1 then
    { b with failures := b.failures + 1, lastFailure := now, state := .opened }
  else
    { b with failures := b.failures + 1, lastFailure := now }

/-- Breaker states reachable from some initial breaker by any sequence of
`can_execute`, `record_success`, `record_failure` calls. -/
inductive CircuitBreaker.Reachable : CircuitBreaker → Prop
  | init (threshold : Nat) (timeout : Int) :
      Reachable (CircuitBreaker.init threshold timeout)
  | canExec (b : CircuitBreaker) (now : Int) :
      Reachable b → Reachable (b.can_execute now).2
  | success (b : CircuitBreaker) :
      Reachable b → Reachable b.record_success
  | failure (b : CircuitBreaker) (now : Int) :
      Reachable b → Reachable (b.record_failure now)

/-- Iterated `record_failure` at the given sequence of times. -/
def CircuitBreaker.recordFailures (b : CircuitBreaker) :
    List Int → CircuitBreaker
  | [] => b
  | t :: ts => (b.record_failure t).recordFailures ts

/-! ### Rate limiter (`tracker.py`, class `RateLimiter`) -/

/-- Fields of `RateLimiter.__init__`; `_requests` is a
`defaultdict(list)` mapping user id to retained timestamps. -/
structure RateLimiter where
  max_requests : Nat
  window_seconds : Int
  requests : String → List Int

def RateLimiter.init (max_requests : Nat) (window_seconds : Int) :
    RateLimiter :=
  ⟨max_requests, window_seconds, fun _ => []⟩

/-- `RateLimiter.check`: prune timestamps at or before `now - window`,
deny when the retained count has reached the cap, otherwise append `now`
and admit.  (`t > window_start` in the source keeps exactly the
timestamps with `now - window < t`.) -/
def RateLimiter.check (L : RateLimiter) (user_id : String) (now : Int) :
    Bool × RateLimiter :=
  let pruned := (L.requests user_id).filter
    (fun t => decide (now - L.window_seconds < t))
  if L.max_requests ≤ pruned.length then
    (false, { L with requests := fun k =>
      if k = user_id then pruned else L.requests k })
  else
    (true, { L with requests := fun k =>
      if k = user_id then pruned ++ [now] else L.requests k })

/-- A sequence of `check` calls for one key at the given times, returning
the list of verdicts and the final limiter. -/
def RateLimiter.checkRun (L : RateLimiter) (user_id : String) :
    List Int → List Bool × RateLimiter
  | [] => ([], L)
  | t :: ts =>
      let r := L.check user_id t
      let rest := r.2.checkRun user_id ts
      (r.1 :: rest.1, rest.2)

/-! ### Research models (`agent_researcher_tools/models.py`) -/

inductive ResearchModel
  | mini
  | pro
  | auto
deriving DecidableEq, Repr

/-- `.value` of the `ResearchModel` string enum. -/
def ResearchModel.value : ResearchModel → String
  | .mini => "mini"
  | .pro => "pro"
  | .auto => "auto"

structure Source where
  url : String
  title : String
  favicon : Option String
deriving DecidableEq, Repr

structure ResearchResult where
  request_id : String
  status : String
  content : String
  sources : List Source
  model : String
  cached : Bool
deriving DecidableEq, Repr

/-- One raw item of an upstream response (`dict[str, Any]` in the source),
kept abstract as its serialized form. -/
structure RawItem where
  payload : String
deriving DecidableEq, Repr

structure SearchResult where
  query : String
  answer : Option String
  results : List RawItem
  response_time : Int
  cached : Bool
deriving DecidableEq, Repr

structure ExtractResult where
  results : List RawItem
  failed_results : List String
deriving DecidableEq, Repr

/-- Errors raised by the gateway: pydantic validation failures, and the
`ResearchToolError` family (`RateLimitError` and `CircuitOpenError` are
its subclasses; plain `ResearchToolError` wraps upstream failures). -/
inductive GwError
  | validationError (msg : String)
  | rateLimitError
  | circuitOpenError
  | researchToolError (msg : String)
deriving DecidableEq, Repr

/-- Python `str.strip()`: drop leading and trailing whitespace, modelled
on the character list (Python strings are character sequences). -/
def pyStrip (s : String) : String :=
  ⟨((s.data.dropWhile Char.isWhitespace).reverse.dropWhile
    Char.isWhitespace).reverse⟩

def listIsPre : List Char → List Char → Bool
  | [], _ => true
  | _ :: _, [] => false
  | c :: cs, d :: ds => c == d && listIsPre cs ds

/-- Python `str.startswith(pre)`. -/
def pyStartsWith (s pre : String) : Bool := listIsPre pre.data s.data


instance {ε α : Type} [DecidableEq ε] [DecidableEq α] :
    DecidableEq (Except ε α) := fun x y =>
  match x, y with
  | .ok a, .ok b =>
      if h : a = b then isTrue (by rw [h])
      else isFalse (fun hc => by cases hc; exact h rfl)
  | .ok _, .error _ => isFalse (fun hc => by cases hc)
  | .error _, .ok _ => isFalse (fun hc => by cases hc)
  | .error d, .error e =>
      if h : d = e then isTrue (by rw [h])
      else isFalse (fun hc => by cases hc; exact h rfl)

structure ResearchRequest where
  query : String
  model : ResearchModel
  max_results : Int
  include_domains : List String
  exclude_domains : List String
deriving DecidableEq, Repr

/-- Pydantic validation of `ResearchRequest`: the `query` validator rejects
empty/whitespace-only or over-10000-char queries and strips the rest;
`max_results` is constrained to `1 ≤ _ ≤ 50`. -/
def mkResearchRequest (query : String) (model : ResearchModel)
    (max_results : Int) (include_domains exclude_domains : List String) :
    Except GwError ResearchRequest :=
  if pyStrip query = "" then
    .error (.validationError "query cannot be empty")
  else if 10000 < query.length then .error (.validationError "query too long")
  else if max_results < 1 ∨ 50 < max_results then
    .error (.validationError "max_results out of range")
  else .ok ⟨pyStrip query, model, max_results, include_domains,
    exclude_domains⟩

structure SearchRequest where
  query : String
  search_depth : String
  max_results : Int
  include_domains : List String
  exclude_domains : List String
  include_answer : Bool
  include_raw_content : Bool
deriving DecidableEq, Repr

/-- Pydantic validation of `SearchRequest`: the same `query` validator,
the `search_depth` pattern `basic|advanced`, and `1 ≤ max_results ≤ 50`. -/
def mkSearchRequest (query search_depth : String) (max_results : Int)
    (include_domains exclude_domains : List String)
    (include_answer include_raw_content : Bool) :
    Except GwError SearchRequest :=
  if pyStrip query = "" then
    .error (.validationError "query cannot be empty")
  else if 10000 < query.length then .error (.validationError "query too long")
  else if ¬ (search_depth = "basic" ∨ search_depth = "advanced") then
    .error (.validationError "search_depth must be basic or advanced")
  else if max_results < 1 ∨ 50 < max_results then
    .error (.validationError "max_results out of range")
  else .ok ⟨pyStrip query, search_depth, max_results, include_domains,
    exclude_domains, include_answer, include_raw_content⟩

structure ExtractRequest where
  urls : List String
  include_images : Bool
deriving DecidableEq, Repr

/-- Pydantic validation of `ExtractRequest`: 1 to 20 urls, every url
starting with the http or https scheme. -/
def mkExtractRequest (urls : List String) (include_images : Bool) :
    Except GwError ExtractRequest :=
  if urls.length < 1 ∨ 20 < urls.length then
    .error (.validationError "urls list size out of range")
  else if urls.all (fun u =>
      pyStartsWith u "http://" || pyStartsWith u "https://") then
    .ok ⟨urls, include_images⟩
  else .error (.validationError "invalid URL")

/-! ### Cache key (`ResearchTool._cache_key`)

The source computes `sha256(f"{op}:{sorted(kwargs.items())}")`.  Sorting
(by key, then value — Python tuple order on string pairs) is modelled
with `List.insertionSort` under the lexicographic order `itemLe`; the
SHA-256 digest is modelled by the digested text itself (equal text gives
an equal digest; digest collisions are outside the model), and Python's
repr quotes around the strings are dropped. -/

/-- Python's `<` on strings: lexicographic (code-point) order on the
character sequence. -/
def strLt (a b : String) : Prop := List.Lex (· < ·) a.data b.data

instance : DecidableRel strLt := fun a b => by
  unfold strLt
  infer_instance

lemma strLt_trans {a b c : String} (h1 : strLt a b) (h2 : strLt b c) :
    strLt a c := trans_of (List.Lex (· < · : Char → Char → Prop)) h1 h2

lemma strLt_asymm {a b : String} (h1 : strLt a b) : ¬ strLt b a :=
  asymm_of (List.Lex (· < · : Char → Char → Prop)) h1

lemma strLt_irrefl (a : String) : ¬ strLt a a :=
  irrefl_of (List.Lex (· < · : Char → Char → Prop)) a.data

lemma strLt_trichotomy (a b : String) : strLt a b ∨ a = b ∨ strLt b a := by
  rcases trichotomous_of (List.Lex (· < · : Char → Char → Prop))
    a.data b.data with h | h | h
  · exact Or.inl h
  · refine Or.inr (Or.inl ?_)
    cases a; cases b
    exact congrArg String.mk h
  · exact Or.inr (Or.inr h)

/-- Lexicographic order on `(key, value)` string pairs, as Python compares
tuples when sorting `kwargs.items()` (a non-strict order, as `sorted`
needs). -/
def itemLe (a b : String × String) : Prop :=
  strLt a.1 b.1 ∨ (a.1 = b.1 ∧ (a.2 = b.2 ∨ strLt a.2 b.2))

instance : DecidableRel itemLe := fun a b => by
  unfold itemLe
  infer_instance

instance : IsTotal (String × String) itemLe where
  total a b := by
    rcases strLt_trichotomy a.1 b.1 with h | h | h
    · exact Or.inl (Or.inl h)
    · rcases strLt_trichotomy a.2 b.2 with h2 | h2 | h2
      · exact Or.inl (Or.inr ⟨h, Or.inr h2⟩)
      · exact Or.inl (Or.inr ⟨h, Or.inl h2⟩)
      · exact Or.inr (Or.inr ⟨h.symm, Or.inr h2⟩)
    · exact Or.inr (Or.inl h)

instance : IsTrans (String × String) itemLe where
  trans a b c hab hbc := by
    rcases hab with h1 | ⟨h1, h2⟩
    · rcases hbc with h3 | ⟨h3, _⟩
      · exact Or.inl (strLt_trans h1 h3)
      · exact Or.inl (h3 ▸ h1)
    · rcases hbc with h3 | ⟨h3, h4⟩
      · exact Or.inl (h1 ▸ h3)
      · refine Or.inr ⟨h1.trans h3, ?_⟩
        rcases h2 with h2 | h2
        · exact h2 ▸ h4
        · rcases h4 with h4 | h4
          · exact Or.inr (h4 ▸ h2)
          · exact Or.inr (strLt_trans h2 h4)

instance : IsAntisymm (String × String) itemLe where
  antisymm a b hab hba := by
    rcases hab with h1 | ⟨h1, h2⟩
    · rcases hba with h3 | ⟨h3, _⟩
      · exact absurd h3 (strLt_asymm h1)
      · rw [h3] at h1
        exact absurd h1 (strLt_irrefl _)
    · rcases hba with h3 | ⟨h3, h4⟩
      · rw [h1] at h3
        exact absurd h3 (strLt_irrefl _)
      · rcases h2 with h2 | h2
        · exact Prod.ext h1 h2
        · rcases h4 with h4 | h4
          · exact Prod.ext h1 h4.symm
          · exact absurd h4 (strLt_asymm h2)

/-- `sorted(kwargs.items())`. -/
def sortItems (kwargs : List (String × String)) : List (String × String) :=
  List.insertionSort itemLe kwargs

/-- The Python str() of the sorted item list, with repr quotes dropped. -/
def serializeItems (items : List (String × String)) : String :=
  "[" ++ String.intercalate ", "
    (items.map (fun p => "(" ++ p.1 ++ ", " ++ p.2 ++ ")")) ++ "]"

/-- `ResearchTool._cache_key(op, **kwargs)`. -/
def cache_key (opName : String) (kwargs : List (String × String)) : String :=
  opName ++ ":" ++ serializeItems (sortItems kwargs)

/-- The key computed by `research` (research.py line 117): only the
validated request's `query` and `model.value` are included. -/
def researchCacheKey (req : ResearchRequest) : String :=
  cache_key "research" [("query", req.query), ("model", req.model.value)]

/-- The key computed by `search` (research.py line 208): only the
validated request's `query` and `search_depth` are included. -/
def searchCacheKey (req : SearchRequest) : String :=
  cache_key "search" [("query", req.query), ("depth", req.search_depth)]

/-! ### Result cache (`ResearchTool._cache`) -/

/-- A value stored in the shared `_cache` dict: research results under
"research:..." keys, search results under "search:..." keys. -/
inductive CacheVal
  | research (r : ResearchResult)
  | search (r : SearchResult)
deriving DecidableEq, Repr

structure CacheEntry where
  data : CacheVal
  ts : Int
deriving DecidableEq, Repr

/-- `ResearchTool._get_cached`: an entry younger than the fixed 3600s TTL,
otherwise treated as absent. -/
def get_cached (cache : String → Option CacheEntry) (key : String)
    (now : Int) : Option CacheVal :=
  match cache key with
  | some e => if now - e.ts < 3600 then some e.data else none
  | none => none

/-- `ResearchTool._set_cached`: store the payload stamped with the current
time. -/
def set_cached (cache : String → Option CacheEntry) (key : String)
    (data : CacheVal) (now : Int) : String → Option CacheEntry :=
  fun k => if k = key then some ⟨data, now⟩ else cache k

/-! ### Usage tracker (`cost_tracker/usage.py`) -/

structure KeyUsage where
  usage : Int
  limit : Int
  search_usage : Int
  extract_usage : Int
  crawl_usage : Int
  map_usage : Int
  research_usage : Int
deriving DecidableEq, Repr

structure AccountUsage where
  current_plan : String
  plan_usage : Int
  plan_limit : Int
  paygo_usage : Int
  paygo_limit : Int
  search_usage : Int
  extract_usage : Int
  crawl_usage : Int
  map_usage : Int
  research_usage : Int
deriving DecidableEq, Repr

structure TavilyUsage where
  key : KeyUsage
  account : AccountUsage
deriving DecidableEq, Repr

/-- The tracker's single piece of state, `_cached`. -/
structure UsageTracker where
  cached : Option TavilyUsage
deriving DecidableEq, Repr

/-- `UsageTracker.fetch`, with the successfully-fetched-and-parsed remote
snapshot supplied as `remote` (the HTTP call and JSON field mapping are
external collaborators).  Returns the snapshot, the new tracker state,
and whether the remote call was performed; the lock serializes callers,
so each call is this pure step. -/
def UsageTracker.fetch (u : UsageTracker) (force : Bool)
    (remote : TavilyUsage) : TavilyUsage × UsageTracker × Bool :=
  match u.cached, force with
  | some c, false => (c, u, false)
  | _, _ => (remote, ⟨some remote⟩, true)

/-- `UsageTracker.clear_cache`. -/
def UsageTracker.clear_cache (_ : UsageTracker) : UsageTracker := ⟨none⟩

/-! ### Retry policy (the tenacity decorator on the `_*_sync` calls) -/

/-- Outcome of one physical upstream attempt: success carrying the parsed
result, a transient `ConnectionError`/`TimeoutError`, or any other
exception. -/
inductive Attempt (α : Type)
  | success (r : α)
  | transient
  | fatal (msg : String)

/-- The terminal failure of a retry-wrapped call. -/
inductive UpErr
  | transient
  | fatal (msg : String)
deriving DecidableEq, Repr

/-- Message text of the exception as seen by the gateway handler. -/
def UpErr.pyMessage : UpErr → String
  | .transient => "connection error"
  | .fatal msg => msg

/-- A single unwrapped attempt as a terminal outcome. -/
def Attempt.run {α : Type} : Attempt α → Except UpErr α
  | .success r => .ok r
  | .transient => .error .transient
  | .fatal msg => .error (.fatal msg)

/-- `@retry(stop=stop_after_attempt(3), retry=transient-only, reraise)`:
up to `fuel` attempts, retrying only transient failures, reraising the
final error unchanged.  `up n` is the outcome of physical attempt `n`;
returns the terminal outcome and the number of attempts performed. -/
def runRetry {α : Type} (up : Nat → Attempt α) :
    Nat → Nat → Except UpErr α × Nat
  | 0, _ => (.error .transient, 0)
  | fuel + 1, i =>
      match up i with
      | .success r => (.ok r, 1)
      | .fatal msg => (.error (.fatal msg), 1)
      | .transient =>
          if fuel = 0 then (.error .transient, 1)
          else
            let rest := runRetry up fuel (i + 1)
            (rest.1, rest.2 + 1)

/-! ### Gateway (`agent_researcher_tools/research.py`, class
`ResearchTool`)

The tool's mutable collaborators — the breaker and limiter singletons,
the class-level `_cache` dict, and the usage-tracker singleton — form
the gateway state.  Each operation is a pure function of that state, an
explicit `now`, the request inputs, and the upstream behaviour `up`;
alongside result and state it returns the ordered list of observable
side effects. -/

structure GatewayState where
  breaker : CircuitBreaker
  limiter : RateLimiter
  cache : String → Option CacheEntry
  usage : UsageTracker

/-- Observable side effects of one gateway operation, in order. -/
inductive Event
  | upstreamAttempt
  | recordFailure
  | recordSuccess
  | cacheStore (key : String)
  | usageClear
deriving DecidableEq, Repr

/-- `ResearchTool._check_limits`: breaker admission (raising
`CircuitOpenError` on denial) then per-user rate admission (raising
`RateLimitError`).  The breaker's probe transition and the limiter's
prune/append bookkeeping persist in either outcome. -/
def check_limits (g : GatewayState) (user_id : String) (now : Int) :
    Except GwError Unit × GatewayState :=
  let cb := g.breaker.can_execute now
  let g1 : GatewayState := { g with breaker := cb.2 }
  if cb.1 = false then (.error .circuitOpenError, g1)
  else
    let rc := g1.limiter.check user_id now
    let g2 : GatewayState := { g1 with limiter := rc.2 }
    if rc.1 = false then (.error .rateLimitError, g2)
    else (.ok (), g2)

/-- `ResearchTool.research`: validate, admission checks, cache lookup
(a hit also sets the shared object's `cached` flag, observationally the
returned copy), else the bridged retry-wrapped upstream call followed by
cache store, usage-cache invalidation and breaker success recording; on
failure the breaker failure recording and the wrapped error. -/
def research (g : GatewayState) (up : Nat → Attempt ResearchResult)
    (now : Int) (query : String) (model : ResearchModel)
    (max_results : Int) (include_domains exclude_domains : List String)
    (user_id : String) :
    Except GwError ResearchResult × GatewayState × List Event :=
  match mkResearchRequest query model max_results include_domains
      exclude_domains with
  | .error e => (.error e, g, [])
  | .ok req =>
      match check_limits g user_id now with
      | (.error e, g1) => (.error e, g1, [])
      | (.ok _, g1) =>
          let key := researchCacheKey req
          match get_cached g1.cache key now with
          | some (.research r) => (.ok { r with cached := true }, g1, [])
          | _ =>
              let rr := runRetry up 3 0
              let events := List.replicate rr.2 Event.upstreamAttempt
              match rr.1 with
              | .ok r =>
                  (.ok r,
                    { g1 with
                      cache := set_cached g1.cache key (.research r) now,
                      usage := g1.usage.clear_cache,
                      breaker := g1.breaker.record_success },
                    events ++ [.cacheStore key, .usageClear, .recordSuccess])
              | .error e =>
                  (.error (.researchToolError
                      ("Research failed: " ++ e.pyMessage)),
                    { g1 with breaker := g1.breaker.record_failure now },
                    events ++ [.recordFailure])

/-- `ResearchTool.search`: same pipeline as `research` with the search
request, key and result types. -/
def search (g : GatewayState) (up : Nat → Attempt SearchResult)
    (now : Int) (query search_depth : String) (max_results : Int)
    (include_domains exclude_domains : List String)
    (include_answer include_raw_content : Bool) (user_id : String) :
    Except GwError SearchResult × GatewayState × List Event :=
  match mkSearchRequest query search_depth max_results include_domains
      exclude_domains include_answer include_raw_content with
  | .error e => (.error e, g, [])
  | .ok req =>
      match check_limits g user_id now with
      | (.error e, g1) => (.error e, g1, [])
      | (.ok _, g1) =>
          let key := searchCacheKey req
          match get_cached g1.cache key now with
          | some (.search r) => (.ok { r with cached := true }, g1, [])
          | _ =>
              let rr := runRetry up 3 0
              let events := List.replicate rr.2 Event.upstreamAttempt
              match rr.1 with
              | .ok r =>
                  (.ok r,
                    { g1 with
                      cache := set_cached g1.cache key (.search r) now,
                      usage := g1.usage.clear_cache,
                      breaker := g1.breaker.record_success },
                    events ++ [.cacheStore key, .usageClear, .recordSuccess])
              | .error e =>
                  (.error (.researchToolError
                      ("Search failed: " ++ e.pyMessage)),
                    { g1 with breaker := g1.breaker.record_failure now },
                    events ++ [.recordFailure])

/-- `ResearchTool.extract`: validate, admission checks, retry-wrapped
upstream call; not cached. -/
def extract (g : GatewayState) (up : Nat → Attempt ExtractResult)
    (now : Int) (urls : List String) (include_images : Bool)
    (user_id : String) :
    Except GwError ExtractResult × GatewayState × List Event :=
  match mkExtractRequest urls include_images with
  | .error e => (.error e, g, [])
  | .ok _ =>
      match check_limits g user_id now with
      | (.error e, g1) => (.error e, g1, [])
      | (.ok _, g1) =>
          let rr := runRetry up 3 0
          let events := List.replicate rr.2 Event.upstreamAttempt
          match rr.1 with
          | .ok r =>
              (.ok r,
                { g1 with
                  usage := g1.usage.clear_cache,
                  breaker := g1.breaker.record_success },
                events ++ [.usageClear, .recordSuccess])
          | .error e =>
              (.error (.researchToolError
                  ("Extract failed: " ++ e.pyMessage)),
                { g1 with breaker := g1.breaker.record_failure now },
                events ++ [.recordFailure])

/-- `ResearchTool.qna`: inline emptiness check (a `ResearchToolError`, not
pydantic), admission checks, then a single unretried upstream call; not
cached. -/
def qna (g : GatewayState) (up : Attempt String) (now : Int)
    (query : String) (user_id : String) :
    Except GwError String × GatewayState × List Event :=
  if pyStrip query = "" then
    (.error (.researchToolError "query cannot be empty"), g, [])
  else
    match check_limits g user_id now with
    | (.error e, g1) => (.error e, g1, [])
    | (.ok _, g1) =>
        match up.run with
        | .ok r =>
            (.ok r,
              { g1 with
                usage := g1.usage.clear_cache,
                breaker := g1.breaker.record_success },
              [.upstreamAttempt, .usageClear, .recordSuccess])
        | .error e =>
            (.error (.researchToolError ("QnA failed: " ++ e.pyMessage)),
              { g1 with breaker := g1.breaker.record_failure now },
              [.upstreamAttempt, .recordFailure])

/-- `ResearchTool.get_context`: inline emptiness check, admission checks,
then a single unretried upstream call; not cached; `max_tokens` is
passed through unvalidated. -/
def get_context (g : GatewayState) (up : Attempt String) (now : Int)
    (query : String) (max_tokens : Int) (user_id : String) :
    Except GwError String × GatewayState × List Event :=
  if pyStrip query = "" then
    (.error (.researchToolError "query cannot be empty"), g, [])
  else
    match check_limits g user_id now with
    | (.error e, g1) => (.error e, g1, [])
    | (.ok _, g1) =>
        match up.run with
        | .ok r =>
            (.ok r,
              { g1 with
                usage := g1.usage.clear_cache,
                breaker := g1.breaker.record_success },
              [.upstreamAttempt, .usageClear, .recordSuccess])
        | .error e =>
            (.error (.researchToolError
                ("Get context failed: " ++ e.pyMessage)),
              { g1 with breaker := g1.breaker.record_failure now },
              [.upstreamAttempt, .recordFailure])

/-! ### Concrete fixtures for closed runs -/

/-- A sample parsed upstream research result. -/
def rSample : ResearchResult :=
  ⟨"rid", "completed", "research content", [], "pro", false⟩

/-- A sample parsed upstream search result. -/
def sSample : SearchResult := ⟨"x", none, [], 0, false⟩

/-- A sample parsed upstream extract result. -/
def eSample : ExtractResult := ⟨[⟨"page"⟩], []⟩

/-- A sample usage snapshot. -/
def tuSample : TavilyUsage :=
  ⟨⟨1, 100, 0, 0, 0, 0, 1⟩, ⟨"dev", 1, 100, 0, 0, 0, 0, 0, 0, 1⟩⟩

/-- An upstream that behaves the same on every attempt. -/
def upAlways {α : Type} (a : Attempt α) : Nat → Attempt α := fun _ => a

/-- A fresh gateway: breaker 5/60, limiter 10/60, empty cache, no usage
snapshot. -/
def gFresh : GatewayState :=
  ⟨CircuitBreaker.init 5 60, RateLimiter.init 10 60, fun _ => none, ⟨none⟩⟩

/-- Scenario: breaker 1/30, limiter 10/60; research "x" succeeds at t=0. -/
def c5run1 : Except GwError ResearchResult × GatewayState × List Event :=
  research ⟨CircuitBreaker.init 1 30, RateLimiter.init 10 60,
    fun _ => none, ⟨none⟩⟩ (upAlways (.success rSample)) 0
    "x" .pro 10 [] [] "u"

/-- ... then research "y" fails at t=5, opening the breaker. -/
def c5run2 : Except GwError ResearchResult × GatewayState × List Event :=
  research c5run1.2.1 (upAlways (.fatal "boom")) 5 "y" .pro 10 [] [] "u"

/-- ... then research "x" again at t=40: probe due, cache entry fresh. -/
def c5run3 : Except GwError ResearchResult × GatewayState × List Event :=
  research c5run2.2.1 (upAlways (.fatal "boom")) 40 "x" .pro 10 [] [] "u"

/-- Scenario: breaker 1/30, limiter cap 1/60; research "x" fails at t=0,
opening the breaker and consuming the only rate slot of the window. -/
def c7run1 : Except GwError ResearchResult × GatewayState × List Event :=
  research ⟨CircuitBreaker.init 1 30, RateLimiter.init 1 60,
    fun _ => none, ⟨none⟩⟩ (upAlways (.fatal "boom")) 0
    "x" .pro 10 [] [] "u"

/-- ... then research "y" at t=40: breaker probe due, limiter still full. -/
def c7run2 : Except GwError ResearchResult × GatewayState × List Event :=
  research c7run1.2.1 (upAlways (.fatal "boom")) 40 "y" .pro 10 [] [] "u"

/-! ### Breaker lemmas -/

namespace CircuitBreaker

/-- Any reachable breaker that is not closed has accumulated at least
`threshold` consecutive failures. -/
lemma reachable_not_closed_failures {b : CircuitBreaker} (h : b.Reachable) :
    b.state ≠ .closed → b.threshold ≤ b.failures := by
  induction h with
  | init th tmo => intro hc; exact absurd rfl hc
  | canExec b now _ ih =>
      intro hc
      cases hs : b.state with
      | closed => simp [can_execute, hs] at hc
      | opened =>
          by_cases hle : b.timeout ≤ now - b.lastFailure
          · simpa [can_execute, hs, hle] using ih (by simp [hs])
          · simpa [can_execute, hs, hle] using ih (by simp [hs])
      | halfOpen => simpa [can_execute, hs] using ih (by simp [hs])
  | success b _ _ => intro hc; exact absurd rfl hc
  | failure b now _ ih =>
      intro hc
      by_cases hth : b.threshold ≤ b.failures + 1
      · simpa [record_failure, hth] using hth
      · simp only [record_failure, if_neg hth] at hc ⊢
        exact le_trans (ih hc) (Nat.le_succ _)

/-- Running `record_failure` from a closed breaker until the count hits the
threshold: the breaker ends open, with the failure count equal to the
threshold and the last failure time stamped by the final call. -/
lemma recordFailures_opens :
    ∀ (ts : List Int) (b : CircuitBreaker), b.state = .closed →
      b.failures + ts.length = b.threshold → (hne : ts ≠ []) →
      (b.recordFailures ts).state = .opened ∧
      (b.recordFailures ts).failures = b.threshold ∧
      (b.recordFailures ts).threshold = b.threshold ∧
      (b.recordFailures ts).timeout = b.timeout ∧
      (b.recordFailures ts).lastFailure = ts.getLast hne
  | [], _, _, _, hne => absurd rfl hne
  | [t], b, hstate, hlen, _ => by
      simp only [List.length_cons, List.length_nil] at hlen
      have hth : b.threshold ≤ b.failures + 1 := by omega
      simp [recordFailures, record_failure, hth]
      omega
  | t :: t' :: ts, b, hstate, hlen, _ => by
      simp only [List.length_cons] at hlen
      have hth : ¬ b.threshold ≤ b.failures + 1 := by omega
      have hstep : b.record_failure t =
          { b with failures := b.failures + 1, lastFailure := t } := by
        simp [record_failure, hth]
      have := recordFailures_opens (t' :: ts)
        { b with failures := b.failures + 1, lastFailure := t }
        (by simpa using hstate) (by simp; omega) (by simp)
      simpa [recordFailures, hstep, List.getLast] using this

end CircuitBreaker

/-! ### Rate limiter lemmas -/

namespace RateLimiter

/-- A `check` whose key's retained timestamps are all inside the trailing
window prunes nothing: it admits exactly when the retained count is
below the cap, appending `now` on admission. -/
lemma check_no_prune (L : RateLimiter) (k : String) (now : Int)
    (hreq : ∀ s ∈ L.requests k, now - L.window_seconds < s) :
    (L.check k now).1 = decide ((L.requests k).length < L.max_requests) ∧
    (L.check k now).2.requests k =
      (if (L.requests k).length < L.max_requests
        then L.requests k ++ [now] else L.requests k) ∧
    (L.check k now).2.max_requests = L.max_requests ∧
    (L.check k now).2.window_seconds = L.window_seconds := by
  have hfilter : (L.requests k).filter
      (fun t => decide (now - L.window_seconds < t)) = L.requests k :=
    List.filter_eq_self.mpr (fun s hs => by simpa using hreq s hs)
  by_cases hlt : (L.requests k).length < L.max_requests
  · simp [check, hfilter, hlt, Nat.not_le.mpr hlt]
  · simp [check, hfilter, hlt, Nat.le_of_not_lt (by simpa using hlt)]

/-- An admitted `check` leaves at most `max_requests` retained timestamps
for the key (and exactly the pruned ones plus `now`). -/
lemma check_admitted_length (L : RateLimiter) (k : String) (now : Int)
    (h : (L.check k now).1 = true) :
    ((L.check k now).2.requests k).length ≤ L.max_requests := by
  by_cases hle : L.max_requests ≤ ((L.requests k).filter
      (fun t => decide (now - L.window_seconds < t))).length
  · simp [check, hle] at h
  · simp [check, hle]
    omega

/-- A run of `check` calls all inside the window of a reference time `now`,
with room under the cap for all of them, admits every call and retains
exactly the old timestamps followed by the new ones. -/
lemma checkRun_all_admitted (k : String) (now : Int) :
    ∀ (ts : List Int) (L : RateLimiter),
      (∀ t ∈ ts, now - L.window_seconds < t ∧ t ≤ now) →
      (∀ s ∈ L.requests k, now - L.window_seconds < s) →
      (L.requests k).length + ts.length ≤ L.max_requests →
      (L.checkRun k ts).1 = List.replicate ts.length true ∧
      (L.checkRun k ts).2.requests k = L.requests k ++ ts ∧
      (L.checkRun k ts).2.max_requests = L.max_requests ∧
      (L.checkRun k ts).2.window_seconds = L.window_seconds
  | [], L => by intro _ _ _; simp [checkRun]
  | t :: ts, L => by
      intro hts hreq hlen
      obtain ⟨hwt, htn⟩ := hts t (by simp)
      have hstep := check_no_prune L k t (fun s hs => by
        have := hreq s hs
        omega)
      have hroom : (L.requests k).length < L.max_requests := by
        simp at hlen; omega
      rw [if_pos hroom] at hstep
      obtain ⟨hb, hkreq, hmax, hwin⟩ := hstep
      have hih := checkRun_all_admitted k now ts (L.check k t).2
        (fun u hu => by
          have := hts u (by simp [hu])
          rw [hwin]; exact this)
        (fun s hs => by
          rw [hkreq] at hs
          rw [hwin]
          rcases List.mem_append.mp hs with h1 | h1
          · exact hreq s h1
          · simp at h1; omega)
        (by rw [hkreq, hmax]; simp at hlen ⊢; omega)
      refine ⟨?_, ?_, ?_, ?_⟩
      · simp only [checkRun, List.length_cons, List.replicate_succ]
        rw [hb]
        simp [hroom, hih.1]
      · simp only [checkRun]
        rw [hih.2.1, hkreq]
        simp
      · simp only [checkRun]; rw [hih.2.2.1, hmax]
      · simp only [checkRun]; rw [hih.2.2.2, hwin]

end RateLimiter

/-! ### Gateway path lemmas -/

/-- `can_execute` never changes the failure count, configuration or
last-failure stamp. -/
lemma can_execute_frame (b : CircuitBreaker) (now : Int) :
    (b.can_execute now).2.failures = b.failures ∧
    (b.can_execute now).2.threshold = b.threshold ∧
    (b.can_execute now).2.timeout = b.timeout ∧
    (b.can_execute now).2.lastFailure = b.lastFailure := by
  cases hs : b.state with
  | closed => simp [CircuitBreaker.can_execute, hs]
  | opened =>
      by_cases hle : b.timeout ≤ now - b.lastFailure <;>
        simp [CircuitBreaker.can_execute, hs, hle]
  | halfOpen => simp [CircuitBreaker.can_execute, hs]

/-- A denied `can_execute` leaves the breaker exactly as it was. -/
lemma can_execute_false_eq (b : CircuitBreaker) (now : Int)
    (h : (b.can_execute now).1 = false) : (b.can_execute now).2 = b := by
  cases hs : b.state with
  | closed => simp [CircuitBreaker.can_execute, hs] at h
  | opened =>
      by_cases hle : b.timeout ≤ now - b.lastFailure
      · simp [CircuitBreaker.can_execute, hs, hle] at h
      · simp [CircuitBreaker.can_execute, hs, hle]
  | halfOpen => simp [CircuitBreaker.can_execute, hs] at h

/-- `_check_limits` touches only the breaker (by `can_execute`) and the
limiter, never the cache or the usage tracker. -/
lemma check_limits_frame (g : GatewayState) (uid : String) (now : Int) :
    (check_limits g uid now).2.cache = g.cache ∧
    (check_limits g uid now).2.usage = g.usage ∧
    (check_limits g uid now).2.breaker = (g.breaker.can_execute now).2 := by
  simp only [check_limits]
  split
  · exact ⟨rfl, rfl, rfl⟩
  · split
    · exact ⟨rfl, rfl, rfl⟩
    · exact ⟨rfl, rfl, rfl⟩

/-- `_check_limits` when both admissions pass. -/
lemma check_limits_ok (g : GatewayState) (uid : String) (now : Int)
    (hb : (g.breaker.can_execute now).1 = true)
    (hr : (g.limiter.check uid now).1 = true) :
    check_limits g uid now =
      (.ok (),
        { g with
          breaker := (g.breaker.can_execute now).2,
          limiter := (g.limiter.check uid now).2 }) := by
  simp [check_limits, hb, hr]

/-- `_check_limits` when the breaker denies: `CircuitOpenError`, and the
state is left exactly as it was. -/
lemma check_limits_breaker_denied (g : GatewayState) (uid : String)
    (now : Int) (hb : (g.breaker.can_execute now).1 = false) :
    check_limits g uid now = (.error .circuitOpenError, g) := by
  have heq := can_execute_false_eq g.breaker now hb
  simp [check_limits, hb, heq]

/-- `_check_limits` when the breaker admits but the limiter denies:
`RateLimitError`; the breaker keeps whatever `can_execute` left (which
may be the half-open probe state) and the limiter keeps its pruning. -/
lemma check_limits_limiter_denied (g : GatewayState) (uid : String)
    (now : Int) (hb : (g.breaker.can_execute now).1 = true)
    (hr : (g.limiter.check uid now).1 = false) :
    check_limits g uid now =
      (.error .rateLimitError,
        { g with
          breaker := (g.breaker.can_execute now).2,
          limiter := (g.limiter.check uid now).2 }) := by
  simp [check_limits, hb, hr]

/-- The cache-hit path of `research`. -/
lemma research_hit_run (g : GatewayState)
    (up : Nat → Attempt ResearchResult) (now : Int) (query : String)
    (model : ResearchModel) (max_results : Int) (incl excl : List String)
    (uid : String) (req : ResearchRequest) (g1 : GatewayState)
    (r : ResearchResult)
    (hreq : mkResearchRequest query model max_results incl excl = .ok req)
    (hcl : check_limits g uid now = (.ok (), g1))
    (hhit : get_cached g1.cache (researchCacheKey req) now
      = some (.research r)) :
    research g up now query model max_results incl excl uid =
      (.ok { r with cached := true }, g1, []) := by
  simp only [research, hreq, hcl, hhit]

/-- The upstream-success path of `research`: cache store, usage-cache
invalidation, breaker success, in the source's order. -/
lemma research_success_run (g : GatewayState)
    (up : Nat → Attempt ResearchResult) (now : Int) (query : String)
    (model : ResearchModel) (max_results : Int) (incl excl : List String)
    (uid : String) (req : ResearchRequest) (g1 : GatewayState)
    (r : ResearchResult) (n : Nat)
    (hreq : mkResearchRequest query model max_results incl excl = .ok req)
    (hcl : check_limits g uid now = (.ok (), g1))
    (hmiss : get_cached g1.cache (researchCacheKey req) now = none)
    (hrr : runRetry up 3 0 = (.ok r, n)) :
    research g up now query model max_results incl excl uid =
      (.ok r,
        { g1 with
          cache := set_cached g1.cache (researchCacheKey req)
            (.research r) now,
          usage := g1.usage.clear_cache,
          breaker := g1.breaker.record_success },
        List.replicate n .upstreamAttempt ++
          [.cacheStore (researchCacheKey req), .usageClear,
            .recordSuccess]) := by
  simp only [research, hreq, hcl, hmiss, hrr]

/-- The upstream-failure path of `research`: one breaker failure record,
the wrapped `ResearchToolError`, and no cache or usage-tracker change. -/
lemma research_failure_run (g : GatewayState)
    (up : Nat → Attempt ResearchResult) (now : Int) (query : String)
    (model : ResearchModel) (max_results : Int) (incl excl : List String)
    (uid : String) (req : ResearchRequest) (g1 : GatewayState)
    (e : UpErr) (n : Nat)
    (hreq : mkResearchRequest query model max_results incl excl = .ok req)
    (hcl : check_limits g uid now = (.ok (), g1))
    (hmiss : get_cached g1.cache (researchCacheKey req) now = none)
    (hrr : runRetry up 3 0 = (.error e, n)) :
    research g up now query model max_results incl excl uid =
      (.error (.researchToolError ("Research failed: " ++ e.pyMessage)),
        { g1 with breaker := g1.breaker.record_failure now },
        List.replicate n .upstreamAttempt ++ [.recordFailure]) := by
  simp only [research, hreq, hcl, hmiss, hrr]

/-- The cache-hit path of `search`. -/
lemma search_hit_run (g : GatewayState) (up : Nat → Attempt SearchResult)
    (now : Int) (query search_depth : String) (max_results : Int)
    (incl excl : List String) (ia irc : Bool) (uid : String)
    (req : SearchRequest) (g1 : GatewayState) (r : SearchResult)
    (hreq : mkSearchRequest query search_depth max_results incl excl ia irc
      = .ok req)
    (hcl : check_limits g uid now = (.ok (), g1))
    (hhit : get_cached g1.cache (searchCacheKey req) now
      = some (.search r)) :
    search g up now query search_depth max_results incl excl ia irc uid =
      (.ok { r with cached := true }, g1, []) := by
  simp only [search, hreq, hcl, hhit]

/-- The upstream-success path of `search`. -/
lemma search_success_run (g : GatewayState)
    (up : Nat → Attempt SearchResult) (now : Int)
    (query search_depth : String) (max_results : Int)
    (incl excl : List String) (ia irc : Bool) (uid : String)
    (req : SearchRequest) (g1 : GatewayState) (r : SearchResult) (n : Nat)
    (hreq : mkSearchRequest query search_depth max_results incl excl ia irc
      = .ok req)
    (hcl : check_limits g uid now = (.ok (), g1))
    (hmiss : get_cached g1.cache (searchCacheKey req) now = none)
    (hrr : runRetry up 3 0 = (.ok r, n)) :
    search g up now query search_depth max_results incl excl ia irc uid =
      (.ok r,
        { g1 with
          cache := set_cached g1.cache (searchCacheKey req)
            (.search r) now,
          usage := g1.usage.clear_cache,
          breaker := g1.breaker.record_success },
        List.replicate n .upstreamAttempt ++
          [.cacheStore (searchCacheKey req), .usageClear,
            .recordSuccess]) := by
  simp only [search, hreq, hcl, hmiss, hrr]

/-- The upstream-failure path of `search`. -/
lemma search_failure_run (g : GatewayState)
    (up : Nat → Attempt SearchResult) (now : Int)
    (query search_depth : String) (max_results : Int)
    (incl excl : List String) (ia irc : Bool) (uid : String)
    (req : SearchRequest) (g1 : GatewayState) (e : UpErr) (n : Nat)
    (hreq : mkSearchRequest query search_depth max_results incl excl ia irc
      = .ok req)
    (hcl : check_limits g uid now = (.ok (), g1))
    (hmiss : get_cached g1.cache (searchCacheKey req) now = none)
    (hrr : runRetry up 3 0 = (.error e, n)) :
    search g up now query search_depth max_results incl excl ia irc uid =
      (.error (.researchToolError ("Search failed: " ++ e.pyMessage)),
        { g1 with breaker := g1.breaker.record_failure now },
        List.replicate n .upstreamAttempt ++ [.recordFailure]) := by
  simp only [search, hreq, hcl, hmiss, hrr]

/-- The upstream-success path of `extract`. -/
lemma extract_success_run (g : GatewayState)
    (up : Nat → Attempt ExtractResult) (now : Int) (urls : List String)
    (ii : Bool) (uid : String) (req : ExtractRequest) (g1 : GatewayState)
    (r : ExtractResult) (n : Nat)
    (hreq : mkExtractRequest urls ii = .ok req)
    (hcl : check_limits g uid now = (.ok (), g1))
    (hrr : runRetry up 3 0 = (.ok r, n)) :
    extract g up now urls ii uid =
      (.ok r,
        { g1 with
          usage := g1.usage.clear_cache,
          breaker := g1.breaker.record_success },
        List.replicate n .upstreamAttempt ++
          [.usageClear, .recordSuccess]) := by
  simp only [extract, hreq, hcl, hrr]

/-- The upstream-failure path of `extract`. -/
lemma extract_failure_run (g : GatewayState)
    (up : Nat → Attempt ExtractResult) (now : Int) (urls : List String)
    (ii : Bool) (uid : String) (req : ExtractRequest) (g1 : GatewayState)
    (e : UpErr) (n : Nat)
    (hreq : mkExtractRequest urls ii = .ok req)
    (hcl : check_limits g uid now = (.ok (), g1))
    (hrr : runRetry up 3 0 = (.error e, n)) :
    extract g up now urls ii uid =
      (.error (.researchToolError ("Extract failed: " ++ e.pyMessage)),
        { g1 with breaker := g1.breaker.record_failure now },
        List.replicate n .upstreamAttempt ++ [.recordFailure]) := by
  simp only [extract, hreq, hcl, hrr]

/-- The upstream-success path of `qna`. -/
lemma qna_success_run (g : GatewayState) (up : Attempt String) (now : Int)
    (query : String) (uid : String) (g1 : GatewayState) (r : String)
    (hq : ¬ pyStrip query = "")
    (hcl : check_limits g uid now = (.ok (), g1))
    (hup : up.run = .ok r) :
    qna g up now query uid =
      (.ok r,
        { g1 with
          usage := g1.usage.clear_cache,
          breaker := g1.breaker.record_success },
        [.upstreamAttempt, .usageClear, .recordSuccess]) := by
  simp only [qna, if_neg hq, hcl, hup]

/-- The upstream-failure path of `qna`. -/
lemma qna_failure_run (g : GatewayState) (up : Attempt String) (now : Int)
    (query : String) (uid : String) (g1 : GatewayState) (e : UpErr)
    (hq : ¬ pyStrip query = "")
    (hcl : check_limits g uid now = (.ok (), g1))
    (hup : up.run = .error e) :
    qna g up now query uid =
      (.error (.researchToolError ("QnA failed: " ++ e.pyMessage)),
        { g1 with breaker := g1.breaker.record_failure now },
        [.upstreamAttempt, .recordFailure]) := by
  simp only [qna, if_neg hq, hcl, hup]

/-- The upstream-success path of `get_context`. -/
lemma get_context_success_run (g : GatewayState) (up : Attempt String)
    (now : Int) (query : String) (max_tokens : Int) (uid : String)
    (g1 : GatewayState) (r : String)
    (hq : ¬ pyStrip query = "")
    (hcl : check_limits g uid now = (.ok (), g1))
    (hup : up.run = .ok r) :
    get_context g up now query max_tokens uid =
      (.ok r,
        { g1 with
          usage := g1.usage.clear_cache,
          breaker := g1.breaker.record_success },
        [.upstreamAttempt, .usageClear, .recordSuccess]) := by
  simp only [get_context, if_neg hq, hcl, hup]

/-- The upstream-failure path of `get_context`. -/
lemma get_context_failure_run (g : GatewayState) (up : Attempt String)
    (now : Int) (query : String) (max_tokens : Int) (uid : String)
    (g1 : GatewayState) (e : UpErr)
    (hq : ¬ pyStrip query = "")
    (hcl : check_limits g uid now = (.ok (), g1))
    (hup : up.run = .error e) :
    get_context g up now query max_tokens uid =
      (.error (.researchToolError ("Get context failed: " ++ e.pyMessage)),
        { g1 with breaker := g1.breaker.record_failure now },
        [.upstreamAttempt, .recordFailure]) := by
  simp only [get_context, if_neg hq, hcl, hup]


/-- Three transient failures exhaust the retry budget: the transient error
is reraised after exactly 3 attempts. -/
lemma runRetry_transient_exhausted {α : Type} (up : Nat → Attempt α)
    (h : ∀ i < 3, up i = .transient) :
    runRetry up 3 0 = (.error .transient, 3) := by
  have h0 := h 0 (by omega)
  have h1 := h 1 (by omega)
  have h2 := h 2 (by omega)
  simp [runRetry, h0, h1, h2]

/-- A non-transient failure is not retried: it is reraised after the first
attempt. -/
lemma runRetry_fatal_first {α : Type} (up : Nat → Attempt α) (m : String)
    (h : up 0 = .fatal m) : runRetry up 3 0 = (.error (.fatal m), 1) := by
  simp [runRetry, h]

/-- A first-attempt success returns immediately. -/
lemma runRetry_success_first {α : Type} (up : Nat → Attempt α) (r : α)
    (h : up 0 = .success r) : runRetry up 3 0 = (.ok r, 1) := by
  simp [runRetry, h]

/-- Counting the single failure record among the attempt events. -/
lemma count_replicate_append_one (n : Nat) :
    (List.replicate n Event.upstreamAttempt
      ++ [Event.recordFailure]).count Event.recordFailure = 1 := by
  induction n with
  | zero => rfl
  | succ k ih => simpa [List.replicate_succ, List.count_cons] using ih

/-! ### Claim theorems -/

/-! ### Claim theorems: circuit breaker -/

/-- C1: from Closed with zero failures, `threshold` consecutive
`record_failure` calls leave the breaker Open, and `can_execute` then
returns false while less than `timeout` seconds have passed since the
last failure; from a (reachable) HalfOpen state, `record_success` resets
the failure count and closes the breaker, and `record_failure` stamps
`lastFailure = now`, increments the failures, and reopens the breaker. -/
theorem C1_breaker_state_machine :
    (∀ (th : Nat) (tmo : Int) (ts : List Int), 1 ≤ th →
      ts.length = th →
      ((CircuitBreaker.init th tmo).recordFailures ts).state = .opened ∧
      ∀ now : Int,
        now - ((CircuitBreaker.init th tmo).recordFailures ts).lastFailure
          < tmo →
        (((CircuitBreaker.init th tmo).recordFailures ts).can_execute now).1
          = false) ∧
    (∀ b : CircuitBreaker, b.Reachable → b.state = .halfOpen →
      (b.record_success.failures = 0 ∧ b.record_success.state = .closed) ∧
      ∀ now : Int,
        (b.record_failure now).lastFailure = now ∧
        (b.record_failure now).failures = b.failures + 1 ∧
        (b.record_failure now).state = .opened) := by
  constructor
  · intro th tmo ts hth hlen
    have hne : ts ≠ [] := by
      intro h; rw [h] at hlen; simp at hlen; omega
    obtain ⟨hst, _, _, htmo, _⟩ :=
      CircuitBreaker.recordFailures_opens ts (CircuitBreaker.init th tmo)
        rfl (by simpa [CircuitBreaker.init] using hlen) hne
    rw [show (CircuitBreaker.init th tmo).timeout = tmo from rfl] at htmo
    refine ⟨hst, fun now hnow => ?_⟩
    simp only [CircuitBreaker.can_execute, hst]
    rw [if_neg (by omega)]
  · intro b hreach hhalf
    have hinv : b.threshold ≤ b.failures :=
      CircuitBreaker.reachable_not_closed_failures hreach (by simp [hhalf])
    refine ⟨⟨rfl, rfl⟩, fun now => ?_⟩
    have hth : b.threshold ≤ b.failures + 1 := le_trans hinv (Nat.le_succ _)
    simp [CircuitBreaker.record_failure, hth]

/-- Witness for C1 at threshold 2, timeout 60: two failures at times 0, 1
open the breaker and `can_execute` at time 30 fast-fails; a probe at
time 100 reaches HalfOpen, from where a failure at time 150 reopens. -/
theorem C1_breaker_state_machine_witness :
    (((CircuitBreaker.init 2 60).recordFailures [0, 1]).can_execute 30).1
      = false ∧
    (((((CircuitBreaker.init 2 60).recordFailures [0, 1]).can_execute
      100).2.record_failure 150).state = .opened ∧
      ((((CircuitBreaker.init 2 60).recordFailures
        [0, 1]).can_execute 100).2.record_success.state = .closed)) := by
  have h1 := (C1_breaker_state_machine.1 2 60 [0, 1] (by decide)
    (by decide)).2 30 (by decide)
  have hreach : ((((CircuitBreaker.init 2 60).recordFailures
      [0, 1])).can_execute 100).2.Reachable := by
    have : ((CircuitBreaker.init 2 60).recordFailures [0, 1]) =
        (((CircuitBreaker.init 2 60).record_failure 0).record_failure 1) :=
      rfl
    exact CircuitBreaker.Reachable.canExec _ 100 (this ▸
      CircuitBreaker.Reachable.failure _ 1
        (CircuitBreaker.Reachable.failure _ 0
          (CircuitBreaker.Reachable.init 2 60)))
  have h2 := C1_breaker_state_machine.2 _ hreach (by decide)
  exact ⟨h1, (h2.2 150).2.2, h2.1.2⟩

/-- C2 as stated is false on the code: after `timeout` elapses, the probe
`can_execute` returns true and moves Open→HalfOpen, but a second
`can_execute` before any `record_success`/`record_failure` also returns
true (the half-open branch of `can_execute` returns true), not false. -/
theorem C2_counterexample :
    (((CircuitBreaker.init 1 1).record_failure 0).state = .opened) ∧
    ((((CircuitBreaker.init 1 1).record_failure 0).can_execute 5).1
      = true) ∧
    (((((CircuitBreaker.init 1 1).record_failure 0).can_execute
      5).2.can_execute 5).1 = true) := by decide

/-- C2 amended: once `timeout` seconds have elapsed since `lastFailureTime`,
the first `can_execute` on the Open breaker returns true and transitions
it to HalfOpen (the probe); every subsequent `can_execute` before the
next `record_success`/`record_failure` also returns true and leaves the
breaker unchanged; before the timeout elapses, `can_execute` on an Open
breaker returns false and changes nothing. -/
theorem C2_open_timeout_probe (b : CircuitBreaker) (now : Int) :
    (b.state = .opened → b.timeout ≤ now - b.lastFailure →
      (b.can_execute now).1 = true ∧
      (b.can_execute now).2.state = .halfOpen ∧
      (b.can_execute now).2.failures = b.failures ∧
      (b.can_execute now).2.lastFailure = b.lastFailure) ∧
    (b.state = .opened → now - b.lastFailure < b.timeout →
      (b.can_execute now).1 = false ∧ (b.can_execute now).2 = b) ∧
    (b.state = .halfOpen →
      (b.can_execute now).1 = true ∧ (b.can_execute now).2 = b) := by
  refine ⟨fun hs hle => ?_, fun hs hlt => ?_, fun hs => ?_⟩
  · simp only [CircuitBreaker.can_execute, hs]
    rw [if_pos hle]; simp
  · simp only [CircuitBreaker.can_execute, hs]
    rw [if_neg (by omega)]; simp
  · simp [CircuitBreaker.can_execute, hs]

/-- Witness for C2's amended statement: breaker threshold 1, timeout 1,
failure at time 0; at time 5 the probe is admitted into HalfOpen, a
second call at time 6 is also admitted, and at time 0 the open breaker
fast-fails. -/
theorem C2_open_timeout_probe_witness :
    ((((CircuitBreaker.init 1 1).record_failure 0).can_execute 5).1
      = true) ∧
    (((((CircuitBreaker.init 1 1).record_failure 0).can_execute
      5).2.can_execute 6).1 = true) ∧
    ((((CircuitBreaker.init 1 1).record_failure 0).can_execute 0).1
      = false) := by
  refine ⟨((C2_open_timeout_probe _ 5).1 (by decide) (by decide)).1,
    ((C2_open_timeout_probe _ 6).2.2 (by decide)).1,
    ((C2_open_timeout_probe _ 0).2.1 (by decide) (by decide)).1⟩

/-- C4: reachable-state invariant: whenever the breaker is Open,
`consecutiveFailures ≥ threshold`; and HalfOpen is entered only by a
`can_execute` that observed `timeout ≤ now - lastFailure` on an Open
breaker — `record_success` and `record_failure` never move a
non-half-open breaker into HalfOpen. -/
theorem C4_breaker_invariant :
    (∀ b : CircuitBreaker, b.Reachable → b.state = .opened →
      b.threshold ≤ b.failures) ∧
    (∀ (b : CircuitBreaker) (now : Int), b.state ≠ .halfOpen →
      ((b.can_execute now).2.state = .halfOpen →
        b.state = .opened ∧ b.timeout ≤ now - b.lastFailure) ∧
      b.record_success.state ≠ .halfOpen ∧
      (b.record_failure now).state ≠ .halfOpen) := by
  constructor
  · intro b hreach hopen
    exact CircuitBreaker.reachable_not_closed_failures hreach
      (by simp [hopen])
  · intro b now hnot
    refine ⟨fun hhalf => ?_, by simp [CircuitBreaker.record_success], ?_⟩
    · cases hs : b.state with
      | closed => simp [CircuitBreaker.can_execute, hs] at hhalf
      | opened =>
          by_cases hle : b.timeout ≤ now - b.lastFailure
          · exact ⟨rfl, hle⟩
          · simp [CircuitBreaker.can_execute, hs, hle] at hhalf
      | halfOpen => exact absurd hs hnot
    · by_cases hth : b.threshold ≤ b.failures + 1
      · simp [CircuitBreaker.record_failure, hth]
      · simp only [CircuitBreaker.record_failure, if_neg hth]
        exact hnot

/-- Witness for C4: a breaker opened by one failure (threshold 1) has
failures ≥ 1; its probe at an elapsed time certifies the transition
condition; and success/failure recording never yields HalfOpen. -/
theorem C4_breaker_invariant_witness :
    (((CircuitBreaker.init 1 1).record_failure 0).threshold ≤
      ((CircuitBreaker.init 1 1).record_failure 0).failures) ∧
    (((CircuitBreaker.init 1 1).record_failure 0).state = .opened ∧
      ((CircuitBreaker.init 1 1).record_failure 0).timeout ≤
        5 - ((CircuitBreaker.init 1 1).record_failure 0).lastFailure) ∧
    ((CircuitBreaker.init 1 1).record_failure 0).record_success.state
      ≠ .halfOpen := by
  refine ⟨C4_breaker_invariant.1 _
      (CircuitBreaker.Reachable.failure _ 0
        (CircuitBreaker.Reachable.init 1 1)) (by decide),
    (C4_breaker_invariant.2 _ 5 (by decide)).1 (by decide),
    (C4_breaker_invariant.2 _ 5 (by decide)).2.1⟩

/-- C10: `record_success` is total over all breaker states: in any state it
unconditionally zeroes the failure count and closes the breaker, leaving
the configuration and last-failure stamp alone. -/
theorem C10_record_success_total (b : CircuitBreaker) :
    b.record_success.failures = 0 ∧
    b.record_success.state = .closed ∧
    b.record_success.threshold = b.threshold ∧
    b.record_success.timeout = b.timeout ∧
    b.record_success.lastFailure = b.lastFailure := by
  simp [CircuitBreaker.record_success]

/-! ### Claim theorem: rate limiter -/

/-- C3: starting from an empty key, exactly `max_requests` checks inside the
window are all admitted and the next check inside the window is denied;
an admitted check never leaves more than `max_requests` retained
timestamps; once the window has elapsed past every retained timestamp
a check is admitted again; and a cap-2/60s limiter answers three
immediate checks on "u1" with [true, true, false]. -/
theorem C3_rate_limiter (L : RateLimiter) (k : String) (now : Int) :
    (∀ ts : List Int, L.requests k = [] →
      ts.length = L.max_requests →
      (∀ t ∈ ts, now - L.window_seconds < t ∧ t ≤ now) →
      (L.checkRun k ts).1 = List.replicate L.max_requests true ∧
      (((L.checkRun k ts).2.check k now).1 = false)) ∧
    ((L.check k now).1 = true →
      ((L.check k now).2.requests k).length ≤ L.max_requests) ∧
    (1 ≤ L.max_requests →
      (∀ s ∈ L.requests k, s + L.window_seconds ≤ now) →
      (L.check k now).1 = true) ∧
    ((RateLimiter.init 2 60).checkRun "u1" [5, 5, 5]).1
      = [true, true, false] := by
  refine ⟨fun ts hempty hlen hts => ?_, RateLimiter.check_admitted_length L k now,
    fun hpos hold => ?_, by decide⟩
  · have hrun := RateLimiter.checkRun_all_admitted k now ts L hts
      (by rw [hempty]; simp) (by rw [hempty, hlen]; simp)
    obtain ⟨hb, hkreq, hmax, hwin⟩ := hrun
    refine ⟨by rw [hb, hlen], ?_⟩
    have hfull := RateLimiter.check_no_prune (L.checkRun k ts).2 k now
      (fun s hs => by
        rw [hkreq, hempty] at hs
        simp at hs
        rw [hwin]
        exact (hts s hs).1)
    rw [if_neg (by rw [hkreq, hempty, hmax]; simp [hlen])] at hfull
    rw [hfull.1]
    simp only [decide_eq_false_iff_not, Nat.not_lt]
    rw [hkreq, hempty, hmax]
    simp [hlen]
  · have hfilter : (L.requests k).filter
        (fun t => decide (now - L.window_seconds < t)) = [] := by
      rw [List.filter_eq_nil_iff]
      intro s hs
      have := hold s hs
      simp
      omega
    have h0 : ¬ L.max_requests ≤ ((L.requests k).filter
        (fun t => decide (now - L.window_seconds < t))).length := by
      rw [hfilter]; simp; omega
    simp [RateLimiter.check, h0]

/-- Witness for C3: cap-2/60s limiter, checks at times 1 and 2 admitted,
a third at time 10 denied; single-check length bound; and re-admission
at time 100 after a stale timestamp. -/
theorem C3_rate_limiter_witness :
    (((RateLimiter.init 2 60).checkRun "u1" [1, 2]).1
        = List.replicate 2 true ∧
      ((((RateLimiter.init 2 60).checkRun "u1" [1, 2]).2.check "u1"
        10).1 = false)) ∧
    ((((RateLimiter.init 2 60).check "u1" 10).2.requests "u1").length
      ≤ 2) ∧
    ((((RateLimiter.init 1 60).check "u1" 0).2.check "u1" 100).1
      = true) := by
  refine ⟨(C3_rate_limiter (RateLimiter.init 2 60) "u1" 10).1 [1, 2] rfl
      (by decide) (by decide),
    (C3_rate_limiter (RateLimiter.init 2 60) "u1" 10).2.1 (by decide),
    (C3_rate_limiter ((RateLimiter.init 1 60).check "u1" 0).2 "u1"
      100).2.2.1 (by decide) ?_⟩
  intro s hs
  have hmem : s ∈ [(0 : Int)] := by
    simpa [RateLimiter.check, RateLimiter.init] using hs
  have hw : ((RateLimiter.init 1 60).check "u1" 0).2.window_seconds = 60 :=
    rfl
  simp at hmem
  omega


/-- C5 as stated is false on the code: a call answered from a valid cache
entry can still change the breaker state, because the admission check
that precedes the cache lookup consumes the Open→HalfOpen probe.
Concrete run: research "x" succeeds at t=0 (populating the cache),
research "y" fails at t=5 (threshold-1 breaker opens), and research "x"
at t=40 is served from the cache with `cached = true` and no
events — yet the breaker moved from Open to HalfOpen. -/
theorem C5_counterexample :
    c5run2.2.1.breaker.state = .opened ∧
    c5run3.1 = .ok { rSample with cached := true } ∧
    c5run3.2.2 = [] ∧
    c5run3.2.1.breaker.state = .halfOpen := by decide

/-- C5 amended: for the cached operations (research, search), a valid
(TTL 3600s) cache hit returns the cached result with `cached := true`,
performs no upstream attempt and no breaker/usage-tracker recording (the
event list is empty), and leaves the cache, the usage snapshot, and the
breaker's failure count unchanged — though the admission check that
precedes the lookup may itself move an Open breaker to HalfOpen; and two
back-to-back `research` calls with identical query and model perform
exactly one upstream attempt, the second call answering from the cache
with `cached = true`. -/
theorem C5_cached_operations (g : GatewayState)
    (up up2 : Nat → Attempt ResearchResult)
    (sup : Nat → Attempt SearchResult) (now now2 : Int)
    (query depth : String) (model : ResearchModel) (max_results : Int)
    (incl excl : List String) (ia irc : Bool) (uid uid2 : String) :
    (∀ (req : ResearchRequest) (g1 : GatewayState) (r : ResearchResult),
      mkResearchRequest query model max_results incl excl = .ok req →
      check_limits g uid now = (.ok (), g1) →
      get_cached g1.cache (researchCacheKey req) now
        = some (.research r) →
      research g up now query model max_results incl excl uid =
        (.ok { r with cached := true }, g1, []) ∧
      g1.cache = g.cache ∧ g1.usage = g.usage ∧
      g1.breaker.failures = g.breaker.failures) ∧
    (∀ (req : SearchRequest) (g1 : GatewayState) (r : SearchResult),
      mkSearchRequest query depth max_results incl excl ia irc = .ok req →
      check_limits g uid now = (.ok (), g1) →
      get_cached g1.cache (searchCacheKey req) now = some (.search r) →
      search g sup now query depth max_results incl excl ia irc uid =
        (.ok { r with cached := true }, g1, []) ∧
      g1.cache = g.cache ∧ g1.usage = g.usage ∧
      g1.breaker.failures = g.breaker.failures) ∧
    (∀ (req : ResearchRequest) (g1 gS g2 : GatewayState)
      (r0 : ResearchResult) (res1 : Except GwError ResearchResult)
      (evs : List Event),
      mkResearchRequest query model max_results incl excl = .ok req →
      check_limits g uid now = (.ok (), g1) →
      get_cached g1.cache (researchCacheKey req) now = none →
      up 0 = .success r0 →
      research g up now query model max_results incl excl uid =
        (res1, gS, evs) →
      check_limits gS uid2 now2 = (.ok (), g2) →
      now2 - now < 3600 →
      res1 = .ok r0 ∧ evs.count .upstreamAttempt = 1 ∧
      research gS up2 now2 query model max_results incl excl uid2 =
        (.ok { r0 with cached := true }, g2, [])) := by
  refine ⟨fun req g1 r hreq hcl hhit => ?_,
    fun req g1 r hreq hcl hhit => ?_,
    fun req g1 gS g2 r0 res1 evs hreq hcl hmiss hup hrun hcl2 httl => ?_⟩
  · have hframe := check_limits_frame g uid now
    rw [hcl] at hframe
    refine ⟨research_hit_run g up now query model max_results incl excl uid
      req g1 r hreq hcl hhit, hframe.1, hframe.2.1, ?_⟩
    rw [hframe.2.2]
    exact (can_execute_frame g.breaker now).1
  · have hframe := check_limits_frame g uid now
    rw [hcl] at hframe
    refine ⟨search_hit_run g sup now query depth max_results incl excl ia
      irc uid req g1 r hreq hcl hhit, hframe.1, hframe.2.1, ?_⟩
    rw [hframe.2.2]
    exact (can_execute_frame g.breaker now).1
  · have hrr : runRetry up 3 0 = (.ok r0, 1) :=
      runRetry_success_first up r0 hup
    have hrun' := research_success_run g up now query model max_results
      incl excl uid req g1 r0 1 hreq hcl hmiss hrr
    rw [hrun'] at hrun
    obtain ⟨h1, h2, h3⟩ : res1 = .ok r0 ∧
        gS = { g1 with
          cache := set_cached g1.cache (researchCacheKey req)
            (.research r0) now,
          usage := g1.usage.clear_cache,
          breaker := g1.breaker.record_success } ∧
        evs = List.replicate 1 .upstreamAttempt ++
          [.cacheStore (researchCacheKey req), .usageClear,
            .recordSuccess] := by
      refine ⟨?_, ?_, ?_⟩ <;>
        simp [Prod.ext_iff] at hrun <;> tauto
    refine ⟨h1, by rw [h3]; rfl, ?_⟩
    have hframe2 := check_limits_frame gS uid2 now2
    rw [hcl2] at hframe2
    have hhit2 : get_cached g2.cache (researchCacheKey req) now2
        = some (.research r0) := by
      rw [hframe2.1, h2]
      simp [get_cached, set_cached, httl]
    exact research_hit_run gS up2 now2 query model max_results incl excl
      uid2 req g2 r0 hreq hcl2 hhit2

/-- Witness for C5's amended statement, on concrete runs: a hit against a
pre-populated state returns the stored result with `cached = true` and
no events, and the back-to-back scenario yields a second call answered
from the cache. -/
theorem C5_cached_operations_witness :
    (research (research gFresh (upAlways (.success rSample)) 0 "x" .pro 10
        [] [] "u").2.1 (upAlways (.fatal "boom")) 7 "x" .pro 10 [] []
        "u").1 = .ok { rSample with cached := true } ∧
    (research gFresh (upAlways (.success rSample)) 0 "x" .pro 10 [] []
        "u").2.2.count Event.upstreamAttempt = 1 := by
  have h := (C5_cached_operations gFresh (upAlways (.success rSample))
    (upAlways (.fatal "boom")) (upAlways .transient) 0 7 "x" "advanced"
    .pro 10 [] [] true false "u" "u").2.2
    ⟨"x", .pro, 10, [], []⟩ (check_limits gFresh "u" 0).2
    (research gFresh (upAlways (.success rSample)) 0 "x" .pro 10 [] []
      "u").2.1
    (check_limits (research gFresh (upAlways (.success rSample)) 0 "x"
      .pro 10 [] [] "u").2.1 "u" 7).2
    rSample
    (research gFresh (upAlways (.success rSample)) 0 "x" .pro 10 [] []
      "u").1
    (research gFresh (upAlways (.success rSample)) 0 "x" .pro 10 [] []
      "u").2.2
    (by decide) rfl (by decide) rfl rfl rfl (by decide)
  refine ⟨?_, ?_⟩
  · rw [h.2.2]
  · exact h.2.1


/-- C6: when the upstream step of a gateway operation fails — immediately
for a non-transient error, or with the 3-attempt retry budget exhausted
by transient ConnectionError/TimeoutError — the breaker records exactly
one failure, the error is wrapped into the domain `ResearchToolError`
and raised, and neither the cache nor the usage snapshot changes.
(`qna` and `get_context` carry no retry decorator in the source; their
single attempt's failure takes the same handling path.) -/
theorem C6_upstream_failure_handling (α : Type) (aup : Nat → Attempt α) :
    ((∀ i, i < 3 → aup i = .transient) →
      runRetry aup 3 0 = (.error .transient, 3)) ∧
    (∀ m : String, aup 0 = .fatal m →
      runRetry aup 3 0 = (.error (.fatal m), 1)) ∧
    (∀ (g : GatewayState) (up : Nat → Attempt ResearchResult) (now : Int)
      (query : String) (model : ResearchModel) (max_results : Int)
      (incl excl : List String) (uid : String) (req : ResearchRequest)
      (g1 : GatewayState) (e : UpErr) (n : Nat),
      mkResearchRequest query model max_results incl excl = .ok req →
      check_limits g uid now = (.ok (), g1) →
      get_cached g1.cache (researchCacheKey req) now = none →
      runRetry up 3 0 = (.error e, n) →
      research g up now query model max_results incl excl uid =
        (.error (.researchToolError ("Research failed: " ++ e.pyMessage)),
          { g1 with breaker := g1.breaker.record_failure now },
          List.replicate n .upstreamAttempt ++ [.recordFailure]) ∧
      (List.replicate n Event.upstreamAttempt
        ++ [Event.recordFailure]).count Event.recordFailure = 1 ∧
      g1.cache = g.cache ∧ g1.usage = g.usage) ∧
    (∀ (g : GatewayState) (up : Nat → Attempt SearchResult) (now : Int)
      (query depth : String) (max_results : Int) (incl excl : List String)
      (ia irc : Bool) (uid : String) (req : SearchRequest)
      (g1 : GatewayState) (e : UpErr) (n : Nat),
      mkSearchRequest query depth max_results incl excl ia irc = .ok req →
      check_limits g uid now = (.ok (), g1) →
      get_cached g1.cache (searchCacheKey req) now = none →
      runRetry up 3 0 = (.error e, n) →
      search g up now query depth max_results incl excl ia irc uid =
        (.error (.researchToolError ("Search failed: " ++ e.pyMessage)),
          { g1 with breaker := g1.breaker.record_failure now },
          List.replicate n .upstreamAttempt ++ [.recordFailure]) ∧
      g1.cache = g.cache ∧ g1.usage = g.usage) ∧
    (∀ (g : GatewayState) (up : Nat → Attempt ExtractResult) (now : Int)
      (urls : List String) (ii : Bool) (uid : String)
      (req : ExtractRequest) (g1 : GatewayState) (e : UpErr) (n : Nat),
      mkExtractRequest urls ii = .ok req →
      check_limits g uid now = (.ok (), g1) →
      runRetry up 3 0 = (.error e, n) →
      extract g up now urls ii uid =
        (.error (.researchToolError ("Extract failed: " ++ e.pyMessage)),
          { g1 with breaker := g1.breaker.record_failure now },
          List.replicate n .upstreamAttempt ++ [.recordFailure]) ∧
      g1.cache = g.cache ∧ g1.usage = g.usage) ∧
    (∀ (g : GatewayState) (up : Attempt String) (now : Int)
      (query uid : String) (g1 : GatewayState) (e : UpErr),
      ¬ pyStrip query = "" →
      check_limits g uid now = (.ok (), g1) →
      up.run = .error e →
      qna g up now query uid =
        (.error (.researchToolError ("QnA failed: " ++ e.pyMessage)),
          { g1 with breaker := g1.breaker.record_failure now },
          [.upstreamAttempt, .recordFailure]) ∧
      g1.cache = g.cache ∧ g1.usage = g.usage) ∧
    (∀ (g : GatewayState) (up : Attempt String) (now : Int)
      (query : String) (max_tokens : Int) (uid : String)
      (g1 : GatewayState) (e : UpErr),
      ¬ pyStrip query = "" →
      check_limits g uid now = (.ok (), g1) →
      up.run = .error e →
      get_context g up now query max_tokens uid =
        (.error (.researchToolError
            ("Get context failed: " ++ e.pyMessage)),
          { g1 with breaker := g1.breaker.record_failure now },
          [.upstreamAttempt, .recordFailure]) ∧
      g1.cache = g.cache ∧ g1.usage = g.usage) := by
  refine ⟨fun h => runRetry_transient_exhausted aup h,
    fun m hm => runRetry_fatal_first aup m hm, ?_, ?_, ?_, ?_, ?_⟩
  · intro g up now query model max_results incl excl uid req g1 e n
      hreq hcl hmiss hrr
    have hframe := check_limits_frame g uid now
    rw [hcl] at hframe
    exact ⟨research_failure_run g up now query model max_results incl excl
        uid req g1 e n hreq hcl hmiss hrr,
      count_replicate_append_one n, hframe.1, hframe.2.1⟩
  · intro g up now query depth max_results incl excl ia irc uid req g1 e n
      hreq hcl hmiss hrr
    have hframe := check_limits_frame g uid now
    rw [hcl] at hframe
    exact ⟨search_failure_run g up now query depth max_results incl excl
        ia irc uid req g1 e n hreq hcl hmiss hrr,
      hframe.1, hframe.2.1⟩
  · intro g up now urls ii uid req g1 e n hreq hcl hrr
    have hframe := check_limits_frame g uid now
    rw [hcl] at hframe
    exact ⟨extract_failure_run g up now urls ii uid req g1 e n hreq hcl
        hrr, hframe.1, hframe.2.1⟩
  · intro g up now query uid g1 e hq hcl hup
    have hframe := check_limits_frame g uid now
    rw [hcl] at hframe
    exact ⟨qna_failure_run g up now query uid g1 e hq hcl hup,
      hframe.1, hframe.2.1⟩
  · intro g up now query max_tokens uid g1 e hq hcl hup
    have hframe := check_limits_frame g uid now
    rw [hcl] at hframe
    exact ⟨get_context_failure_run g up now query max_tokens uid g1 e hq
        hcl hup, hframe.1, hframe.2.1⟩

/-- Witness for C6 on concrete runs: three transient attempts exhaust the
retry budget; the failed research records one breaker failure and
surfaces the wrapped error; a failed qna takes the same path. -/
theorem C6_upstream_failure_handling_witness :
    runRetry (upAlways (.transient : Attempt ResearchResult)) 3 0
      = (.error .transient, 3) ∧
    (research gFresh (upAlways .transient) 0 "x" .pro 10 [] [] "u").1
      = .error (.researchToolError "Research failed: connection error") ∧
    (research gFresh (upAlways .transient) 0 "x" .pro 10 [] []
      "u").2.2.count Event.recordFailure = 1 ∧
    (research gFresh (upAlways .transient) 0 "x" .pro 10 [] []
      "u").2.1.breaker.failures = 1 ∧
    (qna gFresh .transient 0 "q" "u").1
      = .error (.researchToolError "QnA failed: connection error") := by
  have h1 := (C6_upstream_failure_handling ResearchResult
    (upAlways .transient)).1 (fun i _ => rfl)
  have h3 := (C6_upstream_failure_handling ResearchResult
    (upAlways .transient)).2.2.1 gFresh (upAlways .transient) 0 "x" .pro
    10 [] [] "u" ⟨"x", .pro, 10, [], []⟩ (check_limits gFresh "u" 0).2
    .transient 3 (by decide) rfl (by decide) h1
  have h4 := (C6_upstream_failure_handling String
    (upAlways .transient)).2.2.2.2.2.1 gFresh .transient 0 "q" "u"
    (check_limits gFresh "u" 0).2 .transient (by decide) rfl rfl
  refine ⟨h1, ?_, ?_, ?_, ?_⟩
  · rw [h3.1]
    decide
  · rw [h3.1]
    decide
  · rw [h3.1]
    decide
  · rw [h4.1]
    decide


/-- C7 as stated is false on the code: a call rejected by the rate limiter
can still change the breaker state, because `_check_limits` consults the
breaker first and that `can_execute` call consumes the Open→HalfOpen
probe before the limiter denies.  Concrete run (breaker 1/30, limiter
cap 1/60s): research "x" fails at t=0 (breaker opens, rate slot spent);
research "y" at t=40 is rejected with `RateLimitError`, reaches no
upstream — yet the breaker moved from Open to HalfOpen. -/
theorem C7_counterexample :
    c7run1.2.1.breaker.state = .opened ∧
    c7run2.1 = .error .rateLimitError ∧
    c7run2.2.2 = [] ∧
    c7run2.2.1.breaker.failures = c7run1.2.1.breaker.failures ∧
    c7run2.2.1.breaker.state = .halfOpen := by decide

/-- C7 amended: for every gateway operation, a request failing the
pre-admission shape check raises before any breaker check, limiter check
or upstream call, with the whole state untouched — a pydantic validation
error for research/search/extract (such as extract with a non-http/https
URL), and the inline `ResearchToolError` empty-query check for
qna/get_context; a call rejected by the breaker raises
`CircuitOpenError` with the whole state untouched; a call rejected by
the limiter raises `RateLimitError`, produces no events (no retry, no
upstream, no breaker recording) and leaves the breaker's failure count,
the cache and the usage snapshot unchanged — but the breaker's state may
have taken the Open→HalfOpen probe transition performed by the admission
check itself. -/
theorem C7_validation_admission_isolation :
    (∀ (g : GatewayState) (up : Nat → Attempt ResearchResult) (now : Int)
      (query : String) (model : ResearchModel) (max_results : Int)
      (incl excl : List String) (uid : String) (e : GwError),
      mkResearchRequest query model max_results incl excl = .error e →
      research g up now query model max_results incl excl uid =
        (.error e, g, []) ∧
      ∃ msg, e = .validationError msg) ∧
    (∀ (g : GatewayState) (up : Nat → Attempt SearchResult) (now : Int)
      (query depth : String) (max_results : Int) (incl excl : List String)
      (ia irc : Bool) (uid : String) (e : GwError),
      mkSearchRequest query depth max_results incl excl ia irc
        = .error e →
      search g up now query depth max_results incl excl ia irc uid =
        (.error e, g, []) ∧
      ∃ msg, e = .validationError msg) ∧
    (∀ (g : GatewayState) (up : Nat → Attempt ExtractResult) (now : Int)
      (urls : List String) (ii : Bool) (uid : String) (e : GwError),
      mkExtractRequest urls ii = .error e →
      extract g up now urls ii uid = (.error e, g, []) ∧
      ∃ msg, e = .validationError msg) ∧
    (∀ (g : GatewayState) (up : Attempt String) (now : Int)
      (query uid : String), pyStrip query = "" →
      qna g up now query uid =
        (.error (.researchToolError "query cannot be empty"), g, [])) ∧
    (∀ (g : GatewayState) (up : Attempt String) (now : Int)
      (query : String) (max_tokens : Int) (uid : String),
      pyStrip query = "" →
      get_context g up now query max_tokens uid =
        (.error (.researchToolError "query cannot be empty"), g, [])) ∧
    (∀ (g : GatewayState) (up : Nat → Attempt ResearchResult) (now : Int)
      (query : String) (model : ResearchModel) (max_results : Int)
      (incl excl : List String) (uid : String) (req : ResearchRequest),
      mkResearchRequest query model max_results incl excl = .ok req →
      (g.breaker.can_execute now).1 = false →
      research g up now query model max_results incl excl uid =
        (.error .circuitOpenError, g, [])) ∧
    (∀ (g : GatewayState) (up : Nat → Attempt SearchResult) (now : Int)
      (query depth : String) (max_results : Int) (incl excl : List String)
      (ia irc : Bool) (uid : String) (req : SearchRequest),
      mkSearchRequest query depth max_results incl excl ia irc = .ok req →
      (g.breaker.can_execute now).1 = false →
      search g up now query depth max_results incl excl ia irc uid =
        (.error .circuitOpenError, g, [])) ∧
    (∀ (g : GatewayState) (up : Nat → Attempt ExtractResult) (now : Int)
      (urls : List String) (ii : Bool) (uid : String)
      (req : ExtractRequest),
      mkExtractRequest urls ii = .ok req →
      (g.breaker.can_execute now).1 = false →
      extract g up now urls ii uid = (.error .circuitOpenError, g, [])) ∧
    (∀ (g : GatewayState) (up : Attempt String) (now : Int)
      (query uid : String), ¬ pyStrip query = "" →
      (g.breaker.can_execute now).1 = false →
      qna g up now query uid = (.error .circuitOpenError, g, [])) ∧
    (∀ (g : GatewayState) (up : Attempt String) (now : Int)
      (query : String) (max_tokens : Int) (uid : String),
      ¬ pyStrip query = "" →
      (g.breaker.can_execute now).1 = false →
      get_context g up now query max_tokens uid =
        (.error .circuitOpenError, g, [])) ∧
    (∀ (g : GatewayState) (up : Nat → Attempt ResearchResult) (now : Int)
      (query : String) (model : ResearchModel) (max_results : Int)
      (incl excl : List String) (uid : String) (req : ResearchRequest),
      mkResearchRequest query model max_results incl excl = .ok req →
      (g.breaker.can_execute now).1 = true →
      (g.limiter.check uid now).1 = false →
      research g up now query model max_results incl excl uid =
        (.error .rateLimitError,
          { g with
            breaker := (g.breaker.can_execute now).2,
            limiter := (g.limiter.check uid now).2 }, []) ∧
      (g.breaker.can_execute now).2.failures = g.breaker.failures) ∧
    (∀ (g : GatewayState) (up : Nat → Attempt SearchResult) (now : Int)
      (query depth : String) (max_results : Int) (incl excl : List String)
      (ia irc : Bool) (uid : String) (req : SearchRequest),
      mkSearchRequest query depth max_results incl excl ia irc = .ok req →
      (g.breaker.can_execute now).1 = true →
      (g.limiter.check uid now).1 = false →
      search g up now query depth max_results incl excl ia irc uid =
        (.error .rateLimitError,
          { g with
            breaker := (g.breaker.can_execute now).2,
            limiter := (g.limiter.check uid now).2 }, []) ∧
      (g.breaker.can_execute now).2.failures = g.breaker.failures) ∧
    (∀ (g : GatewayState) (up : Nat → Attempt ExtractResult) (now : Int)
      (urls : List String) (ii : Bool) (uid : String)
      (req : ExtractRequest),
      mkExtractRequest urls ii = .ok req →
      (g.breaker.can_execute now).1 = true →
      (g.limiter.check uid now).1 = false →
      extract g up now urls ii uid =
        (.error .rateLimitError,
          { g with
            breaker := (g.breaker.can_execute now).2,
            limiter := (g.limiter.check uid now).2 }, []) ∧
      (g.breaker.can_execute now).2.failures = g.breaker.failures) ∧
    (∀ (g : GatewayState) (up : Attempt String) (now : Int)
      (query uid : String), ¬ pyStrip query = "" →
      (g.breaker.can_execute now).1 = true →
      (g.limiter.check uid now).1 = false →
      qna g up now query uid =
        (.error .rateLimitError,
          { g with
            breaker := (g.breaker.can_execute now).2,
            limiter := (g.limiter.check uid now).2 }, []) ∧
      (g.breaker.can_execute now).2.failures = g.breaker.failures) ∧
    (∀ (g : GatewayState) (up : Attempt String) (now : Int)
      (query : String) (max_tokens : Int) (uid : String),
      ¬ pyStrip query = "" →
      (g.breaker.can_execute now).1 = true →
      (g.limiter.check uid now).1 = false →
      get_context g up now query max_tokens uid =
        (.error .rateLimitError,
          { g with
            breaker := (g.breaker.can_execute now).2,
            limiter := (g.limiter.check uid now).2 }, []) ∧
      (g.breaker.can_execute now).2.failures = g.breaker.failures) := by
  refine ⟨?_, ?_, ?_, ?_, ?_, ?_, ?_, ?_, ?_, ?_, ?_, ?_, ?_, ?_, ?_⟩
  · intro g up now query model max_results incl excl uid e hval
    refine ⟨by simp only [research, hval], ?_⟩
    unfold mkResearchRequest at hval
    split at hval
    · cases hval
      exact ⟨_, rfl⟩
    · split at hval
      · cases hval
        exact ⟨_, rfl⟩
      · split at hval
        · cases hval
          exact ⟨_, rfl⟩
        · cases hval
  · intro g up now query depth max_results incl excl ia irc uid e hval
    refine ⟨by simp only [search, hval], ?_⟩
    unfold mkSearchRequest at hval
    split at hval
    · cases hval
      exact ⟨_, rfl⟩
    · split at hval
      · cases hval
        exact ⟨_, rfl⟩
      · split at hval
        · cases hval
          exact ⟨_, rfl⟩
        · split at hval
          · cases hval
            exact ⟨_, rfl⟩
          · cases hval
  · intro g up now urls ii uid e hval
    refine ⟨by simp only [extract, hval], ?_⟩
    unfold mkExtractRequest at hval
    split at hval
    · cases hval
      exact ⟨_, rfl⟩
    · split at hval
      · cases hval
      · cases hval
        exact ⟨_, rfl⟩
  · intro g up now query uid hq
    simp only [qna, if_pos hq]
  · intro g up now query max_tokens uid hq
    simp only [get_context, if_pos hq]
  · intro g up now query model max_results incl excl uid req hreq hb
    simp only [research, hreq, check_limits_breaker_denied g uid now hb]
  · intro g up now query depth max_results incl excl ia irc uid req
      hreq hb
    simp only [search, hreq, check_limits_breaker_denied g uid now hb]
  · intro g up now urls ii uid req hreq hb
    simp only [extract, hreq, check_limits_breaker_denied g uid now hb]
  · intro g up now query uid hq hb
    simp only [qna, if_neg hq, check_limits_breaker_denied g uid now hb]
  · intro g up now query max_tokens uid hq hb
    simp only [get_context, if_neg hq,
      check_limits_breaker_denied g uid now hb]
  · intro g up now query model max_results incl excl uid req hreq hb hr
    exact ⟨by simp only [research, hreq,
        check_limits_limiter_denied g uid now hb hr],
      (can_execute_frame g.breaker now).1⟩
  · intro g up now query depth max_results incl excl ia irc uid req
      hreq hb hr
    exact ⟨by simp only [search, hreq,
        check_limits_limiter_denied g uid now hb hr],
      (can_execute_frame g.breaker now).1⟩
  · intro g up now urls ii uid req hreq hb hr
    exact ⟨by simp only [extract, hreq,
        check_limits_limiter_denied g uid now hb hr],
      (can_execute_frame g.breaker now).1⟩
  · intro g up now query uid hq hb hr
    exact ⟨by simp only [qna, if_neg hq,
        check_limits_limiter_denied g uid now hb hr],
      (can_execute_frame g.breaker now).1⟩
  · intro g up now query max_tokens uid hq hb hr
    exact ⟨by simp only [get_context, if_neg hq,
        check_limits_limiter_denied g uid now hb hr],
      (can_execute_frame g.breaker now).1⟩

/-- Witness for C7's amended statement on concrete inputs: an ftp URL and
an empty search query are rejected by validation with the state
untouched; a whitespace-only qna query is rejected by the inline check;
an open breaker fast-fails a research call; a full limiter rejects a
research call and a qna call while the breaker probe transition shows up
in the state. -/
theorem C7_validation_admission_isolation_witness :
    extract gFresh (upAlways (.success eSample)) 0 ["ftp://bad"] false "u"
      = (.error (.validationError "invalid URL"), gFresh, []) ∧
    (search gFresh (upAlways (.success sSample)) 0 "" "advanced" 10 [] []
      true false "u").1
      = .error (.validationError "query cannot be empty") ∧
    (qna gFresh (.success "a") 0 " " "u").1
      = .error (.researchToolError "query cannot be empty") ∧
    (research ⟨⟨1, 30, 1, 0, .opened⟩, RateLimiter.init 1 60,
        fun _ => none, ⟨none⟩⟩ (upAlways .transient) 5 "x" .pro 10 [] []
        "u").1 = .error .circuitOpenError ∧
    (research c7run1.2.1 (upAlways .transient) 40 "y" .pro 10 [] []
        "u").1 = .error .rateLimitError ∧
    (qna c7run1.2.1 .transient 40 "q" "u").1 = .error .rateLimitError := by
  have h3 := (C7_validation_admission_isolation.2.2.1 gFresh
    (upAlways (.success eSample)) 0 ["ftp://bad"] false "u"
    (.validationError "invalid URL") (by decide)).1
  have h2 := (C7_validation_admission_isolation.2.1 gFresh
    (upAlways (.success sSample)) 0 "" "advanced" 10 [] [] true false "u"
    (.validationError "query cannot be empty") (by decide)).1
  have h4 := C7_validation_admission_isolation.2.2.2.1 gFresh
    (.success "a") 0 " " "u" (by decide)
  have h6 := C7_validation_admission_isolation.2.2.2.2.2.1
    ⟨⟨1, 30, 1, 0, .opened⟩, RateLimiter.init 1 60, fun _ => none, ⟨none⟩⟩
    (upAlways .transient) 5 "x" .pro 10 [] [] "u" ⟨"x", .pro, 10, [], []⟩
    (by decide) (by decide)
  have h11 := (C7_validation_admission_isolation.2.2.2.2.2.2.2.2.2.2.1
    c7run1.2.1 (upAlways .transient) 40 "y" .pro 10 [] [] "u"
    ⟨"y", .pro, 10, [], []⟩ (by decide) (by decide) (by decide)).1
  have h14 :=
    (C7_validation_admission_isolation.2.2.2.2.2.2.2.2.2.2.2.2.2.1
      c7run1.2.1 .transient 40 "q" "u" (by decide) (by decide)
      (by decide)).1
  refine ⟨h3, ?_, ?_, ?_, ?_, ?_⟩
  · rw [h2]
  · rw [h4]
  · rw [h6]
  · rw [h11]
  · rw [h14]


/-- C8: the usage tracker returns its cached snapshot for non-forced
fetches; a forced fetch or a fetch with no snapshot performs the remote
call and replaces the snapshot wholesale; and the success path of every
gateway operation clears the snapshot (`clear_cache`), so the next fetch
performs a remote call.  (A cache-hit return of research/search leaves
the snapshot alone per the spec's own hit rule, see C5.) -/
theorem C8_usage_tracker_cache :
    (∀ (u : UsageTracker) (s remote : TavilyUsage),
      u.cached = some s → u.fetch false remote = (s, u, false)) ∧
    (∀ (u : UsageTracker) (remote : TavilyUsage),
      u.fetch true remote = (remote, ⟨some remote⟩, true)) ∧
    (∀ (u : UsageTracker) (remote : TavilyUsage) (force : Bool),
      u.cached = none →
      u.fetch force remote = (remote, ⟨some remote⟩, true)) ∧
    (∀ (g : GatewayState) (up : Nat → Attempt ResearchResult) (now : Int)
      (query : String) (model : ResearchModel) (max_results : Int)
      (incl excl : List String) (uid : String) (req : ResearchRequest)
      (g1 : GatewayState) (r : ResearchResult) (n : Nat),
      mkResearchRequest query model max_results incl excl = .ok req →
      check_limits g uid now = (.ok (), g1) →
      get_cached g1.cache (researchCacheKey req) now = none →
      runRetry up 3 0 = (.ok r, n) →
      (research g up now query model max_results incl excl
        uid).2.1.usage = ⟨none⟩ ∧
      ∀ (remote : TavilyUsage) (force : Bool),
        (research g up now query model max_results incl excl
          uid).2.1.usage.fetch force remote =
          (remote, ⟨some remote⟩, true)) ∧
    (∀ (g : GatewayState) (up : Nat → Attempt SearchResult) (now : Int)
      (query depth : String) (max_results : Int) (incl excl : List String)
      (ia irc : Bool) (uid : String) (req : SearchRequest)
      (g1 : GatewayState) (r : SearchResult) (n : Nat),
      mkSearchRequest query depth max_results incl excl ia irc = .ok req →
      check_limits g uid now = (.ok (), g1) →
      get_cached g1.cache (searchCacheKey req) now = none →
      runRetry up 3 0 = (.ok r, n) →
      (search g up now query depth max_results incl excl ia irc
        uid).2.1.usage = ⟨none⟩) ∧
    (∀ (g : GatewayState) (up : Nat → Attempt ExtractResult) (now : Int)
      (urls : List String) (ii : Bool) (uid : String)
      (req : ExtractRequest) (g1 : GatewayState) (r : ExtractResult)
      (n : Nat),
      mkExtractRequest urls ii = .ok req →
      check_limits g uid now = (.ok (), g1) →
      runRetry up 3 0 = (.ok r, n) →
      (extract g up now urls ii uid).2.1.usage = ⟨none⟩) ∧
    (∀ (g : GatewayState) (up : Attempt String) (now : Int)
      (query uid : String) (g1 : GatewayState) (r : String),
      ¬ pyStrip query = "" →
      check_limits g uid now = (.ok (), g1) →
      up.run = .ok r →
      (qna g up now query uid).2.1.usage = ⟨none⟩) ∧
    (∀ (g : GatewayState) (up : Attempt String) (now : Int)
      (query : String) (max_tokens : Int) (uid : String)
      (g1 : GatewayState) (r : String),
      ¬ pyStrip query = "" →
      check_limits g uid now = (.ok (), g1) →
      up.run = .ok r →
      (get_context g up now query max_tokens uid).2.1.usage = ⟨none⟩) := by
  refine ⟨?_, ?_, ?_, ?_, ?_, ?_, ?_, ?_⟩
  · intro u s remote h
    simp [UsageTracker.fetch, h]
  · intro u remote
    cases hc : u.cached <;> simp [UsageTracker.fetch, hc]
  · intro u remote force h
    cases force <;> simp [UsageTracker.fetch, h]
  · intro g up now query model max_results incl excl uid req g1 r n
      hreq hcl hmiss hrr
    rw [research_success_run g up now query model max_results incl excl
      uid req g1 r n hreq hcl hmiss hrr]
    exact ⟨rfl, fun remote force => by cases force <;> rfl⟩
  · intro g up now query depth max_results incl excl ia irc uid req g1 r n
      hreq hcl hmiss hrr
    rw [search_success_run g up now query depth max_results incl excl ia
      irc uid req g1 r n hreq hcl hmiss hrr]
    rfl
  · intro g up now urls ii uid req g1 r n hreq hcl hrr
    rw [extract_success_run g up now urls ii uid req g1 r n hreq hcl hrr]
    rfl
  · intro g up now query uid g1 r hq hcl hup
    rw [qna_success_run g up now query uid g1 r hq hcl hup]
    rfl
  · intro g up now query max_tokens uid g1 r hq hcl hup
    rw [get_context_success_run g up now query max_tokens uid g1 r hq hcl
      hup]
    rfl

/-- Witness for C8 on concrete inputs: a cached snapshot answers a
non-forced fetch without a remote call; a forced fetch replaces it; a
successful concrete research run leaves the tracker empty so its next
fetch is remote. -/
theorem C8_usage_tracker_cache_witness :
    (⟨some tuSample⟩ : UsageTracker).fetch false tuSample
      = (tuSample, ⟨some tuSample⟩, false) ∧
    (⟨some tuSample⟩ : UsageTracker).fetch true tuSample
      = (tuSample, ⟨some tuSample⟩, true) ∧
    (research gFresh (upAlways (.success rSample)) 0 "x" .pro 10 [] []
      "u").2.1.usage = ⟨none⟩ ∧
    (research gFresh (upAlways (.success rSample)) 0 "x" .pro 10 [] []
      "u").2.1.usage.fetch false tuSample
      = (tuSample, ⟨some tuSample⟩, true) := by
  have h4 := C8_usage_tracker_cache.2.2.2.1 gFresh
    (upAlways (.success rSample)) 0 "x" .pro 10 [] [] "u"
    ⟨"x", .pro, 10, [], []⟩ (check_limits gFresh "u" 0).2 rSample 1
    (by decide) rfl (by decide) (by decide)
  exact ⟨C8_usage_tracker_cache.1 ⟨some tuSample⟩ tuSample tuSample rfl,
    C8_usage_tracker_cache.2.1 ⟨some tuSample⟩ tuSample,
    h4.1, h4.2 tuSample false⟩

/-- C9 as stated is false on the code: the keys computed by `research` and
`search` include only a subset of the request's parameters (query and
model, resp. query and depth), so two different requests — here equal
but for `max_results` — map to the same cache key. -/
theorem C9_counterexample :
    ((⟨"x", .pro, 5, [], []⟩ : ResearchRequest) ≠
      (⟨"x", .pro, 10, [], []⟩ : ResearchRequest)) ∧
    researchCacheKey ⟨"x", .pro, 5, [], []⟩ =
      researchCacheKey ⟨"x", .pro, 10, [], []⟩ := ⟨by decide, rfl⟩

/-- C9 amended: the cache key is a deterministic, order-stable function of
the operation name plus the parameters included in the key — query and
model for research, query and depth for search: permuting the keyword
items leaves the key unchanged, and requests agreeing on the included
parameters share the key regardless of the remaining parameters. -/
theorem C9_cache_key_canonical :
    (∀ (opName : String) (kw1 kw2 : List (String × String)),
      kw1.Perm kw2 → cache_key opName kw1 = cache_key opName kw2) ∧
    (∀ req1 req2 : ResearchRequest, req1.query = req2.query →
      req1.model = req2.model →
      researchCacheKey req1 = researchCacheKey req2) ∧
    (∀ req1 req2 : SearchRequest, req1.query = req2.query →
      req1.search_depth = req2.search_depth →
      searchCacheKey req1 = searchCacheKey req2) := by
  refine ⟨fun opName kw1 kw2 hp => ?_, fun r1 r2 hq hm => ?_,
    fun r1 r2 hq hd => ?_⟩
  · have hs : sortItems kw1 = sortItems kw2 :=
      List.eq_of_perm_of_sorted
        (((List.perm_insertionSort itemLe kw1).trans hp).trans
          (List.perm_insertionSort itemLe kw2).symm)
        (List.sorted_insertionSort itemLe kw1)
        (List.sorted_insertionSort itemLe kw2)
    unfold cache_key sortItems at hs ⊢
    rw [hs]
  · unfold researchCacheKey
    rw [hq, hm]
  · unfold searchCacheKey
    rw [hq, hd]

/-- Witness for C9's amended statement: swapping the two keyword items
yields the same key, and research requests differing only in
`max_results` and domain filters share the key. -/
theorem C9_cache_key_canonical_witness :
    cache_key "research" [("query", "x"), ("model", "pro")] =
      cache_key "research" [("model", "pro"), ("query", "x")] ∧
    researchCacheKey ⟨"x", .pro, 5, ["a"], []⟩ =
      researchCacheKey ⟨"x", .pro, 50, [], ["b"]⟩ :=
  ⟨C9_cache_key_canonical.1 "research" _ _
    (List.Perm.swap ("model", "pro") ("query", "x") []),
  C9_cache_key_canonical.2.1 _ _ rfl rfl⟩

end AutoML




